import Mathlib

/-! Conversation state machine of the chat client.

Shallow embedding of `frontend/src/components/Chat/ChatInterface.js`
(the `ChatInterface` component: `loadChatHistory`, `handleSendMessage`,
`handleRateAnswer` and the message render), of `components/Chat/Message.js`
(the rating modal of one message) and of the `chatAPI` calls of
`services/api.js`.

React state is an explicit record (`State`); every handler is a function on
that record.  An `async` handler is cut at its `await`: the part before it,
and one continuation per outcome of the awaited call.  The continuation
reads the variables of the render in which the handler was started (its
closure) and writes through the functional updaters (`prev => ...`) to the
state current at that time, so it takes both.  Wall-clock readings
(`new Date().toISOString()`, `Date.now()`) are parameters.
-/

namespace ChatClient

/-! ## Data model -/

/-- Venue summary as carried by `data.venues`.  `ChatInterface` passes venues
through untouched; `score` (a fraction in the source) is held in hundredths. -/
structure Venue where
  id : Nat
  name : String
  category : String
  score : Nat
deriving DecidableEq, Repr

/-- One entry of `messages`.  A field that an object literal of the source
leaves out is `none` (`session_id`, `chat_id`) or `false` (`isUser`, which is
only ever tested for truthiness).  For `session_id`, `some none` is a field
that is present and holds `null`. -/
structure Msg where
  id : Nat
  message : String
  response : String
  created_at : String
  session_id : Option (Option String) := none
  chat_id : Option Nat := none
  isUser : Bool := false
deriving DecidableEq, Repr

/-- The `useState` cells of `ChatInterface` that the handlers below touch.
`sessionId` starts as `null` (`none`). -/
structure State where
  messages : List Msg
  inputMessage : String
  sessionId : Option String
  loading : Bool
  showVenues : List Venue
deriving DecidableEq, Repr

/-- Initial values of the `useState` cells (lines 9-13). -/
def State.initial : State :=
  { messages := [], inputMessage := "", sessionId := none, loading := false, showVenues := [] }

/-- Body of a successful `chatAPI.sendMessage` reply (`response.data`).
`venues` may be missing.  `chat_id` stands for the exchange id assigned by the
backend; `handleSendMessage` never reads it. -/
structure Reply where
  response : String
  session_id : Option String
  venues : Option (List Venue)
  chat_id : Option Nat := none
deriving DecidableEq, Repr

/-- Arguments of one `chatAPI.sendMessage(message, sessionId)` call. -/
structure SendRequest where
  message : String
  session_id : Option String
deriving DecidableEq, Repr

/-- Body of one `chatAPI.rateAnswer(chatId, rating, feedback)` call. -/
structure RateRequest where
  chat_id : Nat
  rating : Nat
  feedback : String
deriving DecidableEq, Repr

/-! ## `String.prototype.trim` -/

/-- ECMAScript `WhiteSpace` and `LineTerminator` code points, the characters
that `trim` strips. -/
def isWhiteSpace (c : Char) : Bool :=
  let n := c.toNat
  n == 0x09 || n == 0x0A || n == 0x0B || n == 0x0C || n == 0x0D || n == 0x20 ||
  n == 0xA0 || n == 0x1680 || (0x2000 ≤ n && n ≤ 0x200A) || n == 0x2028 ||
  n == 0x2029 || n == 0x202F || n == 0x205F || n == 0x3000 || n == 0xFEFF

/-- The characters of `text.trim()`. -/
def trim (text : List Char) : List Char :=
  ((text.dropWhile isWhiteSpace).reverse.dropWhile isWhiteSpace).reverse

/-- The test `!inputMessage.trim()`: true when the trimmed text is empty. -/
def blank (text : String) : Bool :=
  (trim text.data).isEmpty

/-! ## `loadChatHistory` -/

/-- Text of the welcome message (line 41). -/
def welcomeText : String :=
  "Привет! Я ваш персональный помощник по подбору мест. Чем могу помочь вам сегодня?"

/-- The `welcomeMessage` literal (lines 38-44). -/
def welcomeMessage (newSessionId : String) (nowIso : String) : Msg :=
  { id := 0, message := "", response := welcomeText, created_at := nowIso,
    session_id := some (some newSessionId) }

/-- Continuation of `loadChatHistory` after `chatAPI.getHistory()` resolved
with `history` (lines 28-46).  `history.reverse()` reverses the array in
place, so `history[0]` on the next line is the first element of the reversed
array.  `nowMs` is `Date.now()`, `nowIso` is `new Date().toISOString()`. -/
def loadChatHistory_then (history : List Msg) (nowMs : Nat) (nowIso : String)
    (cur : State) : State :=
  if history.length > 0 then
    let reversed := history.reverse
    { cur with
      messages := reversed
      sessionId := (reversed.head?.bind fun m => m.session_id).join }
  else
    let newSessionId := "session_" ++ toString nowMs
    { cur with
      sessionId := some newSessionId
      messages := [welcomeMessage newSessionId nowIso] }

/-- The `catch` branch of `loadChatHistory` (lines 47-49): only logs. -/
def loadChatHistory_catch (cur : State) : State := cur

/-! ## `handleSendMessage` -/

/-- Fallback text of the error entry (line 100). -/
def fallbackText : String :=
  "Произошла ошибка. Пожалуйста, попробуйте ещё раз."

/-- The `userMessage` literal (lines 61-67), built from the variables of the
current render `s`. -/
def userMessage (s : State) (nowIso : String) : Msg :=
  { id := s.messages.length, message := s.inputMessage, response := "",
    created_at := nowIso, isUser := true }

/-- The `botMessage` literal (lines 78-85).  `snap` is the render in which
the handler was started: `messages.length` and `inputMessage` are read from
it, not from the state current when the reply arrives. -/
def botMessage (snap : State) (data : Reply) (nowIso : String) : Msg :=
  { id := snap.messages.length + 1, message := snap.inputMessage,
    response := data.response, created_at := nowIso,
    session_id := some data.session_id,
    chat_id := some (snap.messages.length + 1) }

/-- The `errorMessage` literal (lines 97-103). -/
def errorMessage (snap : State) (nowIso : String) : Msg :=
  { id := snap.messages.length + 1, message := snap.inputMessage,
    response := fallbackText, created_at := nowIso,
    session_id := some snap.sessionId }

/-- The guard of line 59: the handler returns at once when the trimmed input
is empty or a send is pending. -/
def rejects (s : State) : Bool :=
  blank s.inputMessage || s.loading

/-- Part of `handleSendMessage` up to the `await` (lines 59-75).  `none` is
the early `return` of line 59.  Otherwise the new state and the request handed
to `chatAPI.sendMessage`. -/
def handleSendMessage_begin (s : State) (nowIso : String) : Option (State × SendRequest) :=
  if rejects s then none
  else
    some ({ s with
            messages := s.messages ++ [userMessage s nowIso]
            inputMessage := ""
            loading := true
            showVenues := [] },
          { message := s.inputMessage, session_id := s.sessionId })

/-- Rest of the `try` block after the request resolved with `data`
(lines 76-92), followed by `finally` (line 107).  `snap` is the render that
started the handler, `cur` the state the updaters are applied to. -/
def handleSendMessage_then (snap : State) (data : Reply) (nowIso : String)
    (cur : State) : State :=
  { cur with
    sessionId := data.session_id
    messages := cur.messages ++ [botMessage snap data nowIso]
    showVenues :=
      match data.venues with
      | some venues => if venues.length > 0 then venues else cur.showVenues
      | none => cur.showVenues
    loading := false }

/-- The `catch` branch (lines 94-105) followed by `finally` (line 107). -/
def handleSendMessage_catch (snap : State) (nowIso : String) (cur : State) : State :=
  { cur with
    messages := cur.messages ++ [errorMessage snap nowIso]
    loading := false }

/-! ## Rating an answer (`Message.js`, `handleRateAnswer`, message render) -/

/-- The `useState` cells of one `Message` component (lines 6-8). -/
structure MessageState where
  showRating : Bool
  userRating : Nat
  feedback : String
deriving DecidableEq, Repr

/-- Initial values of the `Message` cells. -/
def MessageState.initial : MessageState :=
  { showRating := false, userRating := 0, feedback := "" }

/-- The handler `handleRate` of `Message.js` (lines 10-13). -/
def handleRate (rating : Nat) (st : MessageState) : MessageState :=
  { st with userRating := rating, showRating := true }

/-- The handler `submitRating` of `Message.js` (lines 15-21): the new cells and, when the
guard passes, the arguments of the `onRate` call. -/
def submitRating (st : MessageState) : MessageState × Option (Nat × String) :=
  if st.userRating > 0 then
    ({ st with showRating := false, feedback := "" }, some (st.userRating, st.feedback))
  else (st, none)

/-- What one `Message` element shows: a user bubble with the user text, or an
assistant bubble with the response and possibly the rate button. -/
inductive Bubble where
  | user (text : String)
  | bot (text : String) (rateButton : Bool)
deriving DecidableEq, Repr

/-- Render of `Message` (lines 23-48), the modal left out.  `none` is the
`return null` of line 23. -/
def renderMessage (message : Msg) (isUser : Bool) : Option Bubble :=
  if message.response == "" && !isUser then none
  else if isUser then some (Bubble.user message.message)
  else some (Bubble.bot message.response (!isUser && message.response != ""))

/-- The expression `msg.chat_id || index` (lines 150 and 158): a missing
`chat_id` and the number 0 are both falsy. -/
def rateTarget (msg : Msg) (index : Nat) : Nat :=
  match msg.chat_id with
  | some n => if n != 0 then n else index
  | none => index

/-- The handler `handleRateAnswer` (lines 111-118): the `chatAPI.rateAnswer`
call it makes. -/
def handleRateAnswer (chatId : Nat) (rating : Nat) (feedback : String) : RateRequest :=
  { chat_id := chatId, rating := rating, feedback := feedback }

/-- The `onRate` callback that the render attaches to both `Message` elements
of entry `msg` at position `index` (lines 149-151, 157-159). -/
def onRate (msg : Msg) (index : Nat) (rating : Nat) (feedback : String) : RateRequest :=
  handleRateAnswer (rateTarget msg index) rating feedback

/-- The `Message` elements rendered for entry `msg` (lines 145-160), each
with the `isUser` prop it receives: the first only when `msg.message` is
truthy. -/
def renderEntry (msg : Msg) : List (Option Bubble) :=
  (if msg.message != "" then [renderMessage msg msg.isUser] else []) ++
  [renderMessage msg false]

/-- Pressing the submit button of the rating modal of a `Message` element of
entry `msg` at position `index`: the backend call made, if any. -/
def rateCall (msg : Msg) (index : Nat) (st : MessageState) : Option RateRequest :=
  (submitRating st).2.map fun p => onRate msg index p.1 p.2

/-! ## The star control (`Rating.js`) and the rating workflow -/

/-- The array `stars` of `Rating.js` (line 5),
`Array.from({ length: max }, (_, i) => i + 1)`: one button per value. -/
def stars (max : Nat) : List Nat :=
  (List.range max).map fun i => i + 1

/-- The handler `handleClick` of `Rating.js` (lines 7-11): the value handed to
`onChange`, if any.  `hasOnChange` tells whether an `onChange` prop was
passed. -/
def handleClick (readOnly hasOnChange : Bool) (starValue : Nat) : Option Nat :=
  if !readOnly && hasOnChange then some starValue else none

/-- Every value a `Rating` control with `max` stars can hand to `onChange`:
what a click on each of its buttons emits. -/
def ratingEmits (readOnly hasOnChange : Bool) (max : Nat) : List Nat :=
  (stars max).filterMap (handleClick readOnly hasOnChange)

/-- What the user and the rating backend can do to the rating workflow of one
`Message` element that shows the rate button. -/
inductive RatingEvent where
  /-- Click on the rate button (line 40): `handleRate(0)`. -/
  | openModal
  /-- Click on the button of value `star` of the modal's `Rating` control
  (lines 55-58), whose `onChange` is `setUserRating` and whose `max` is the
  default 5. -/
  | pickStar (star : Nat)
  /-- The `onChange` of the feedback textarea (line 63). -/
  | typeFeedback (text : String)
  /-- Click on the cancel button (line 69). -/
  | cancel
  /-- Click on the submit button (line 75): `submitRating`. -/
  | submit
  /-- The call `chatAPI.rateAnswer` resolved: `handleRateAnswer` shows an
  alert (line 114). -/
  | rateSucceeded
  /-- The call `chatAPI.rateAnswer` rejected: `handleRateAnswer` logs the
  error (line 116). -/
  | rateFailed
deriving DecidableEq, Repr

/-- One event of the rating workflow: the new cells of the `Message` element
and the arguments of the `onRate` call, if one is made.  The modal and its
controls exist only while `showRating` is true, so an event on them changes
nothing while it is false.  `handleRateAnswer` has no access to the cells of
`Message`: neither outcome of the backend call touches them. -/
def ratingStep (st : MessageState) : RatingEvent → MessageState × Option (Nat × String)
  | RatingEvent.openModal => (handleRate 0 st, none)
  | RatingEvent.pickStar star =>
    if st.showRating && (stars 5).contains star then
      match handleClick false true star with
      | some value => ({ st with userRating := value }, none)
      | none => (st, none)
    else (st, none)
  | RatingEvent.typeFeedback text =>
    if st.showRating then ({ st with feedback := text }, none) else (st, none)
  | RatingEvent.cancel =>
    if st.showRating then ({ st with showRating := false }, none) else (st, none)
  | RatingEvent.submit =>
    if st.showRating then submitRating st else (st, none)
  | RatingEvent.rateSucceeded => (st, none)
  | RatingEvent.rateFailed => (st, none)

/-- A sequence of rating events, oldest first: the final cells and the
`onRate` calls made, oldest first. -/
def ratingRun : MessageState → List RatingEvent → MessageState × List (Nat × String)
  | st, [] => (st, [])
  | st, e :: es =>
    ((ratingRun (ratingStep st e).1 es).1,
      (ratingStep st e).2.toList ++ (ratingRun (ratingStep st e).1 es).2)

/-- Body of one `venuesAPI.rateVenue(venueId, rating, review)` call. -/
structure VenueRateRequest where
  venue_id : Nat
  rating : Nat
  review : String
deriving DecidableEq, Repr

/-- The handler `handleRateVenue` (lines 129-137): the `venuesAPI.rateVenue`
call it makes. -/
def handleRateVenue (venueId : Nat) (rating : Nat) (review : String) : VenueRateRequest :=
  { venue_id := venueId, rating := rating, review := review }

/-- The `onChange` of the sidebar's rating form (lines 274-279).  `review` is
what `prompt` returned: `none` when it was dismissed; `review || ''` turns
both `null` and the empty string into the empty string. -/
def venueRatingChange (venueId : Nat) (rating : Nat) (review : Option String) :
    Option VenueRateRequest :=
  if rating > 0 then some (handleRateVenue venueId rating (review.getD "")) else none

/-- Click on the button of value `star` of the sidebar's `Rating` control
(lines 272-280, `max` the default 5, not read-only): the backend call made,
if any. -/
def venueStarClick (venueId : Nat) (star : Nat) (review : Option String) :
    Option VenueRateRequest :=
  if (stars 5).contains star then
    (handleClick false true star).bind fun rating => venueRatingChange venueId rating review
  else none

/-! ## The component as a transition system -/

/-- An event handled by the component.  Clock readings travel with the event
that takes them. -/
inductive Event where
  /-- The call `chatAPI.getHistory()` resolved with `history`. -/
  | historyLoaded (history : List Msg) (nowMs : Nat) (nowIso : String)
  /-- The call `chatAPI.getHistory()` rejected. -/
  | historyFailed
  /-- The `onChange` of the input field. -/
  | typed (text : String)
  /-- The `onSubmit` of the form: `handleSendMessage` runs up to its `await`. -/
  | submit (nowIso : String)
  /-- The call `chatAPI.sendMessage` resolved with `data`. -/
  | replied (data : Reply) (nowIso : String)
  /-- The call `chatAPI.sendMessage` rejected. -/
  | failed (nowIso : String)
deriving DecidableEq, Repr

/-- The component together with its suspended handlers.  `fetching`:
`loadChatHistory` is waiting for `chatAPI.getHistory`.  `inflight`: a
`handleSendMessage` call is waiting for `chatAPI.sendMessage`, and holds the
render in which it was started.  `sent`: the `chatAPI.sendMessage` calls made
so far, oldest first. -/
structure Sys where
  ui : State
  fetching : Bool
  inflight : Option State
  sent : List SendRequest
deriving DecidableEq, Repr

/-- The component right after mount: initial cells, `loadChatHistory` started
by the effect of lines 17-19. -/
def Sys.mount : Sys :=
  { ui := State.initial, fetching := true, inflight := none, sent := [] }

/-- One event.  Handlers see the state of the latest render.  An event that
cannot occur in a state (a history result when no fetch is waiting, a reply
when no request is waiting, typing into the disabled input) leaves it as it
is. -/
def step (s : Sys) : Event → Sys
  | Event.historyLoaded history nowMs nowIso =>
    if s.fetching then
      { s with ui := loadChatHistory_then history nowMs nowIso s.ui, fetching := false }
    else s
  | Event.historyFailed =>
    if s.fetching then { s with ui := loadChatHistory_catch s.ui, fetching := false } else s
  | Event.typed text =>
    if s.ui.loading then s else { s with ui := { s.ui with inputMessage := text } }
  | Event.submit nowIso =>
    match handleSendMessage_begin s.ui nowIso with
    | none => s
    | some (ui1, req) => { s with ui := ui1, inflight := some s.ui, sent := s.sent ++ [req] }
  | Event.replied data nowIso =>
    match s.inflight with
    | none => s
    | some snap => { s with ui := handleSendMessage_then snap data nowIso s.ui, inflight := none }
  | Event.failed nowIso =>
    match s.inflight with
    | none => s
    | some snap => { s with ui := handleSendMessage_catch snap nowIso s.ui, inflight := none }

/-- A sequence of events, oldest first. -/
def run (s : Sys) (events : List Event) : Sys :=
  events.foldl step s

/-- One send that succeeds: the text typed, the clock at submit, the reply
and the clock at its arrival. -/
structure Round where
  text : String
  t0 : String
  data : Reply
  t1 : String
deriving DecidableEq, Repr

/-- The events of one successful send. -/
def Round.events (r : Round) : List Event :=
  [Event.typed r.text, Event.submit r.t0, Event.replied r.data r.t1]

/-- Hydration with `history`, then the given successful sends one after the
other. -/
def hydrateThenSend (history : List Msg) (nowMs : Nat) (nowIso : String)
    (rounds : List Round) : Sys :=
  run (step Sys.mount (Event.historyLoaded history nowMs nowIso))
    (rounds.flatMap Round.events)

/-- Number of `submit` events of a run that pass the guard of line 59. -/
def acceptedSends : Sys → List Event → Nat
  | _, [] => 0
  | s, e :: es =>
    (match e with
      | Event.submit _ => if rejects s.ui then 0 else 1
      | _ => 0) + acceptedSends (step s e) es

/-- Whether an event is the arrival of a reply or of a failure. -/
def Event.isOutcome : Event → Bool
  | Event.replied _ _ => true
  | Event.failed _ => true
  | _ => false

/-- Number of entries whose `response` is empty. -/
def emptyResponses (messages : List Msg) : Nat :=
  messages.countP fun m => m.response == ""

/-- The state of a conversation whose hydration is over and whose entries are
numbered by position: entry `i` has `id` `i`, and a waiting `handleSendMessage`
call was started when the ledger was one entry shorter than it is now. -/
def Numbered (s : Sys) : Prop :=
  s.fetching = false ∧
  s.ui.messages.map Msg.id = List.range s.ui.messages.length ∧
  (∀ snap, s.inflight = some snap →
    s.ui.loading = true ∧ snap.messages.length + 1 = s.ui.messages.length) ∧
  (s.inflight = none → s.ui.loading = false)

/-! ## `ProtectedRoute` (`App.js`) -/

/-- Truthiness of a value that is `null` or a string: `null` and the empty
string are falsy. -/
def truthy (value : Option String) : Bool :=
  match value with
  | some text => text != ""
  | none => false

/-- A value returned by `JSON.parse`, as far as `ProtectedRoute` can tell
values apart: `null`; an object, with `role` the string held by its `role`
property (`none` when the property is missing or holds no string); any other
value (number, string, boolean, array), whose `role` property is
`undefined`. -/
inductive JsonValue where
  | null
  | object (role : Option String)
  | other
deriving DecidableEq, Repr

/-- The exceptions `ProtectedRoute` can end in: the `SyntaxError` of
`JSON.parse` and the `TypeError` of reading a property of `null`. -/
inductive JsError where
  | syntaxError
  | typeError
deriving DecidableEq, Repr

/-- The two `localStorage` items read by `ProtectedRoute`, as the texts that
`getItem` returns; `none` is an item that is not there (`null`). -/
structure Storage where
  token : Option String
  user : Option String
deriving DecidableEq, Repr

/-- The expression `value || fallback` for a value that is `null` or a
string. -/
def orElse (value : Option String) (fallback : String) : String :=
  match value with
  | some text => if text != "" then text else fallback
  | none => fallback

/-- The property access `user.role`: a `TypeError` on `null`. -/
def roleOf : JsonValue → Except JsError (Option String)
  | JsonValue.null => Except.error JsError.typeError
  | JsonValue.object role => Except.ok role
  | JsonValue.other => Except.ok none

/-- What `ProtectedRoute` returns: a `Navigate` element or its children. -/
inductive RouteResult where
  | navigate (target : String)
  | children
deriving DecidableEq, Repr

/-- The component `ProtectedRoute` (`App.js`, lines 14-27).  `jsonParse` is
`JSON.parse`.  Line 16 parses the `user` item, or the text of the empty
object when the item is missing or empty, before the token is tested; line 22
reads `user.role` only when `requireAdmin` is truthy. -/
def ProtectedRoute (jsonParse : String → Except JsError JsonValue) (store : Storage)
    (requireAdmin : Bool) : Except JsError RouteResult :=
  match jsonParse (orElse store.user "\x7b\x7d") with
  | Except.error e => Except.error e
  | Except.ok user =>
    if !truthy store.token then Except.ok (RouteResult.navigate "/login")
    else if requireAdmin then
      match roleOf user with
      | Except.error e => Except.error e
      | Except.ok role =>
        if role != some "admin" then Except.ok (RouteResult.navigate "/chat")
        else Except.ok RouteResult.children
    else Except.ok RouteResult.children

/-! ## Concrete data used in examples -/

/-- The venue of the spec's scenario. -/
def sushiBar : Venue :=
  { id := 7, name := "Sushi Bar", category := "restaurant", score := 90 }

/-- The successful send of the spec's scenario. -/
def sushiRound : Round :=
  { text := "sushi near me", t0 := "2024-01-01T10:00:00.000Z", t1 := "2024-01-01T10:00:01.000Z",
    data := { response := "Try Sushi Bar", session_id := some "s1",
              venues := some [sushiBar], chat_id := some 42 } }

/-- A persisted exchange as the history source may return it. -/
def pizzaEntry : Msg :=
  { id := 5, message := "pizza", response := "Try Roma",
    created_at := "2023-12-31T18:00:00.000Z", session_id := some (some "s1") }

/-- A later persisted exchange, of another session. -/
def ramenEntry : Msg :=
  { id := 9, message := "ramen", response := "Try Menya",
    created_at := "2024-01-01T08:00:00.000Z", session_id := some (some "s2") }

/-- What `JSON.parse` does with the texts used in the examples: the empty
object, `null`, an object whose `role` is "admin" or "user", and the text
`undefined`, which is no JSON.  It stands for `JSON.parse` on these texts
only. -/
def parseSample (text : String) : Except JsError JsonValue :=
  if text = "\x7b\x7d" then Except.ok (JsonValue.object none)
  else if text = "null" then Except.ok JsonValue.null
  else if text = "\x7b\x22role\x22:\x22admin\x22\x7d" then
    Except.ok (JsonValue.object (some "admin"))
  else if text = "\x7b\x22role\x22:\x22user\x22\x7d" then
    Except.ok (JsonValue.object (some "user"))
  else Except.error JsError.syntaxError

/-! ## Basic facts about the handlers -/

theorem trim_of_all_whiteSpace (text : List Char)
    (h : ∀ c ∈ text, isWhiteSpace c = true) : trim text = [] := by
  have h1 : text.dropWhile isWhiteSpace = [] := by
    rw [List.dropWhile_eq_nil_iff]
    exact h
  simp [trim, h1]

theorem blank_of_all_whiteSpace (text : String)
    (h : ∀ c ∈ text.data, isWhiteSpace c = true) : blank text = true := by
  simp [blank, trim_of_all_whiteSpace text.data h]

theorem begin_of_rejects (s : State) (t0 : String) (h : rejects s = true) :
    handleSendMessage_begin s t0 = none := by
  simp [handleSendMessage_begin, h]

theorem begin_of_accepts (s : State) (t0 : String) (h : rejects s = false) :
    handleSendMessage_begin s t0 =
      some ({ s with
              messages := s.messages ++ [userMessage s t0]
              inputMessage := ""
              loading := true
              showVenues := [] },
            { message := s.inputMessage, session_id := s.sessionId }) := by
  simp [handleSendMessage_begin, h]

theorem loadChatHistory_then_loading (history : List Msg) (nowMs : Nat) (nowIso : String)
    (cur : State) : (loadChatHistory_then history nowMs nowIso cur).loading = cur.loading := by
  unfold loadChatHistory_then
  split <;> rfl

theorem loadChatHistory_then_showVenues (history : List Msg) (nowMs : Nat) (nowIso : String)
    (cur : State) :
    (loadChatHistory_then history nowMs nowIso cur).showVenues = cur.showVenues := by
  unfold loadChatHistory_then
  split <;> rfl

theorem step_submit_of_rejects (s : Sys) (t0 : String) (h : rejects s.ui = true) :
    step s (Event.submit t0) = s := by
  simp [step, begin_of_rejects s.ui t0 h]

theorem step_submit_of_accepts (s : Sys) (t0 : String) (h : rejects s.ui = false) :
    step s (Event.submit t0) =
      { s with
        ui := { s.ui with
                messages := s.ui.messages ++ [userMessage s.ui t0]
                inputMessage := ""
                loading := true
                showVenues := [] }
        inflight := some s.ui
        sent := s.sent ++ [{ message := s.ui.inputMessage, session_id := s.ui.sessionId }] } := by
  simp [step, begin_of_accepts s.ui t0 h]

theorem run_nil (s : Sys) : run s [] = s := rfl

theorem run_cons (s : Sys) (e : Event) (es : List Event) :
    run s (e :: es) = run (step s e) es := rfl

theorem run_append (s : Sys) (es fs : List Event) :
    run s (es ++ fs) = run (run s es) fs := by
  simp [run, List.foldl_append]

/-- Effect of one successful send on an idle component. -/
theorem run_round (s : Sys) (r : Round) (hIdle : s.ui.loading = false)
    (hText : blank r.text = false) :
    (run s r.events).ui.messages =
        s.ui.messages ++
          [userMessage { s.ui with inputMessage := r.text } r.t0,
           botMessage { s.ui with inputMessage := r.text } r.data r.t1] ∧
      (run s r.events).ui.loading = false ∧
      (run s r.events).fetching = s.fetching := by
  simp [Round.events, run, step, handleSendMessage_begin, rejects, hIdle, hText,
    handleSendMessage_then]

theorem run_rounds_length (rounds : List Round) :
    ∀ s : Sys, s.ui.loading = false → (∀ r ∈ rounds, blank r.text = false) →
      (run s (rounds.flatMap Round.events)).ui.messages.length =
          s.ui.messages.length + 2 * rounds.length ∧
        (run s (rounds.flatMap Round.events)).ui.loading = false := by
  induction rounds with
  | nil => intro s hIdle _; simp [run, hIdle]
  | cons r rs ih =>
    intro s hIdle hText
    have hr := run_round s r hIdle (hText r (List.mem_cons_self _ _))
    have hrs := ih (run s r.events) hr.2.1 (fun q hq => hText q (List.mem_cons_of_mem _ hq))
    rw [List.flatMap_cons, run_append]
    refine ⟨?_, hrs.2⟩
    rw [hrs.1, hr.1]
    simp
    omega

/-! ## Ledger length -/

/-- C1 (amended): after hydration with history `h` and `n` sends that all
succeed, `messages` has `|h| + 2n` entries when `h` is non-empty and `1 + 2n`
when it is empty: every send appends a user entry and a reply entry. -/
theorem ledger_length_after_sends (history : List Msg) (nowMs : Nat) (nowIso : String)
    (rounds : List Round) (hText : ∀ r ∈ rounds, blank r.text = false) :
    (hydrateThenSend history nowMs nowIso rounds).ui.messages.length =
      (if history = [] then 1 else history.length) + 2 * rounds.length := by
  unfold hydrateThenSend
  have hIdle : (step Sys.mount (Event.historyLoaded history nowMs nowIso)).ui.loading = false := by
    simp [step, Sys.mount, loadChatHistory_then_loading, State.initial]
  have hLen : (step Sys.mount (Event.historyLoaded history nowMs nowIso)).ui.messages.length =
      (if history = [] then 1 else history.length) := by
    cases history with
    | nil => simp [step, Sys.mount, loadChatHistory_then]
    | cons a l => simp [step, Sys.mount, loadChatHistory_then]
  rw [(run_rounds_length rounds _ hIdle hText).1, hLen]

/-- Witness of `ledger_length_after_sends`: the scenario of the spec. -/
theorem ledger_length_after_sends_witness :
    (∀ r ∈ [sushiRound], blank r.text = false) ∧
      (hydrateThenSend [] 0 "2024-01-01T09:59:00.000Z" [sushiRound]).ui.messages.length =
        (if ([] : List Msg) = [] then 1 else 0) + 2 * 1 :=
  ⟨by decide, ledger_length_after_sends [] 0 "2024-01-01T09:59:00.000Z" [sushiRound] (by decide)⟩

/-- C1 (counterexample): with empty history, one successful send of
"sushi near me" does not leave `n + 1 = 2` entries; it leaves 3. -/
theorem ledger_length_scenario :
    (hydrateThenSend [] 0 "2024-01-01T09:59:00.000Z" [sushiRound]).ui.messages.length = 3 ∧
      (hydrateThenSend [] 0 "2024-01-01T09:59:00.000Z" [sushiRound]).ui.messages.length ≠
        [sushiRound].length + 1 := by
  decide

/-! ## Append-only ledger -/

/-- C2 (amended): a send being accepted, a reply and a failure each leave the
ledger before the event as a prefix of the ledger after it, and so does every
other event except a history load that completes when the ledger already
holds entries: the history load preserves the prefix only when the ledger is
still empty. -/
theorem ledger_prefix_step (s : Sys) (e : Event)
    (hLoad : ∀ history nowMs nowIso,
      e = Event.historyLoaded history nowMs nowIso → s.ui.messages = []) :
    s.ui.messages <+: (step s e).ui.messages := by
  cases e with
  | historyLoaded history nowMs nowIso =>
    rw [hLoad history nowMs nowIso rfl]
    exact List.nil_prefix
  | historyFailed =>
    simp only [step, loadChatHistory_catch]
    split <;> exact List.prefix_refl _
  | typed text =>
    simp only [step]
    split <;> exact List.prefix_refl _
  | submit nowIso =>
    cases h : rejects s.ui with
    | true => rw [step_submit_of_rejects s nowIso h]
    | false =>
      rw [step_submit_of_accepts s nowIso h]
      exact List.prefix_append _ _
  | replied data nowIso =>
    simp only [step]
    split
    · exact List.prefix_refl _
    · exact List.prefix_append _ _
  | failed nowIso =>
    simp only [step]
    split
    · exact List.prefix_refl _
    · exact List.prefix_append _ _

/-- Witness of `ledger_prefix_step`: the history load at mount, when the
ledger is empty. -/
theorem ledger_prefix_step_witness :
    Sys.mount.ui.messages = [] ∧
      Sys.mount.ui.messages <+:
        (step Sys.mount (Event.historyLoaded [pizzaEntry] 0 "2024-01-01T09:59:00.000Z")).ui.messages :=
  ⟨rfl, ledger_prefix_step Sys.mount _ (fun _ _ _ _ => rfl)⟩

/-- C2 (counterexample): a send accepted while the history fetch is still
waiting puts a user entry into the ledger; when the fetch then completes, the
ledger is replaced and the earlier ledger is no prefix of it. -/
theorem ledger_prefix_lost_on_late_history :
    ¬ ((run Sys.mount [Event.typed "hi", Event.submit "2024-01-01T10:00:00.000Z"]).ui.messages <+:
        (run Sys.mount [Event.typed "hi", Event.submit "2024-01-01T10:00:00.000Z",
          Event.historyLoaded [pizzaEntry] 0 "2024-01-01T10:00:01.000Z"]).ui.messages) := by
  decide

/-! ## Entries with empty response -/

theorem fallbackText_ne_empty : (fallbackText == "") = false := by decide

theorem emptyResponses_append_one (messages : List Msg) (m : Msg) :
    emptyResponses (messages ++ [m]) =
      emptyResponses messages + (if m.response == "" then 1 else 0) := by
  simp [emptyResponses, List.countP_append, List.countP_cons]

theorem step_fetching_false (s : Sys) (e : Event) (h : s.fetching = false) :
    (step s e).fetching = false := by
  cases e with
  | historyLoaded history nowMs nowIso => simp [step, h]
  | historyFailed => simp [step, h]
  | typed text => simp only [step]; split <;> simp [h]
  | submit nowIso =>
    cases hr : rejects s.ui with
    | true => rw [step_submit_of_rejects s nowIso hr]; exact h
    | false => rw [step_submit_of_accepts s nowIso hr]; exact h
  | replied data nowIso => simp only [step]; split <;> simp [h]
  | failed nowIso => simp only [step]; split <;> simp [h]

theorem step_emptyResponses (s : Sys) (e : Event) (hFetch : s.fetching = false)
    (hReply : ∀ data t, e = Event.replied data t → data.response ≠ "") :
    emptyResponses (step s e).ui.messages =
      emptyResponses s.ui.messages + acceptedSends s [e] := by
  cases e with
  | historyLoaded history nowMs nowIso => simp [step, hFetch, acceptedSends]
  | historyFailed => simp [step, hFetch, acceptedSends]
  | typed text => simp only [step, acceptedSends]; split <;> simp
  | submit nowIso =>
    cases hr : rejects s.ui with
    | true => rw [step_submit_of_rejects s nowIso hr]; simp [acceptedSends, hr]
    | false =>
      rw [step_submit_of_accepts s nowIso hr]
      simp [acceptedSends, hr, emptyResponses_append_one, userMessage]
  | replied data nowIso =>
    have hne : data.response ≠ "" := hReply data nowIso rfl
    simp only [step, acceptedSends]
    split
    · simp
    · simp [handleSendMessage_then, emptyResponses_append_one, botMessage, hne]
  | failed nowIso =>
    simp only [step, acceptedSends]
    split
    · simp
    · simp [handleSendMessage_catch, emptyResponses_append_one, errorMessage,
        fallbackText_ne_empty]

/-- C3 (amended): once hydration is over and as long as reply texts are
non-empty, the number of entries with empty `response` is the number it was
plus the number of sends accepted since: the user entry of every accepted
send keeps its empty `response` for good, the reply being appended as an
entry of its own. -/
theorem emptyResponses_run (es : List Event) :
    ∀ s : Sys, s.fetching = false →
      (∀ data t, Event.replied data t ∈ es → data.response ≠ "") →
      emptyResponses (run s es).ui.messages =
        emptyResponses s.ui.messages + acceptedSends s es := by
  induction es with
  | nil => intro s _ _; simp [run, acceptedSends]
  | cons e es ih =>
    intro s hFetch hReply
    have h1 := step_emptyResponses s e hFetch
      (fun data t he => hReply data t (by rw [he]; exact List.mem_cons_self _ _))
    have h2 := ih (step s e) (step_fetching_false s e hFetch)
      (fun data t hm => hReply data t (List.mem_cons_of_mem _ hm))
    rw [run_cons, h2, h1]
    simp only [acceptedSends]
    omega

/-- Witness of `emptyResponses_run`: two successful sends after an empty
history leave two entries with empty `response`. -/
theorem emptyResponses_run_witness :
    emptyResponses
        (run (step Sys.mount (Event.historyLoaded [] 0 "2024-01-01T09:59:00.000Z"))
          (sushiRound.events ++ sushiRound.events)).ui.messages =
      0 + 2 := by
  have h := emptyResponses_run (sushiRound.events ++ sushiRound.events)
    (step Sys.mount (Event.historyLoaded [] 0 "2024-01-01T09:59:00.000Z")) (by decide)
    (by
      intro data t hm
      have hd : data = sushiRound.data := by
        simp [Round.events] at hm
        exact hm.1
      rw [hd]
      decide)
  have h0 : emptyResponses
      (step Sys.mount (Event.historyLoaded [] 0 "2024-01-01T09:59:00.000Z")).ui.messages = 0 := by
    decide
  have h1 : acceptedSends (step Sys.mount (Event.historyLoaded [] 0 "2024-01-01T09:59:00.000Z"))
      (sushiRound.events ++ sushiRound.events) = 2 := by decide
  rw [h, h0, h1]

/-- C3 (counterexample): after an empty history and two successful sends, two
entries of `messages` have an empty `response`. -/
theorem two_empty_responses :
    ¬ (emptyResponses
        (hydrateThenSend [] 0 "2024-01-01T09:59:00.000Z" [sushiRound, sushiRound]).ui.messages ≤ 1) := by
  decide

/-! ## Numbering of the entries -/

theorem numbered_after_empty_history (nowMs : Nat) (nowIso : String) :
    Numbered (step Sys.mount (Event.historyLoaded [] nowMs nowIso)) := by
  simp [Numbered, step, Sys.mount, loadChatHistory_then, State.initial, welcomeMessage,
    List.range_succ]

theorem numbered_after_failed_history : Numbered (step Sys.mount Event.historyFailed) := by
  simp [Numbered, step, Sys.mount, loadChatHistory_catch, State.initial]

theorem numbered_step (s : Sys) (e : Event) (h : Numbered s) : Numbered (step s e) := by
  obtain ⟨hFetch, hIds, hSome, hNone⟩ := h
  cases e with
  | historyLoaded history nowMs nowIso =>
    have hs : step s (Event.historyLoaded history nowMs nowIso) = s := by simp [step, hFetch]
    rw [hs]
    exact ⟨hFetch, hIds, hSome, hNone⟩
  | historyFailed =>
    have hs : step s Event.historyFailed = s := by simp [step, hFetch]
    rw [hs]
    exact ⟨hFetch, hIds, hSome, hNone⟩
  | typed text =>
    cases hl : s.ui.loading with
    | true =>
      have hs : step s (Event.typed text) = s := by simp [step, hl]
      rw [hs]
      exact ⟨hFetch, hIds, hSome, hNone⟩
    | false =>
      refine ⟨by simp [step, hl, hFetch], by simpa [step, hl] using hIds, ?_, ?_⟩
      · intro snap hsnap
        have h3 := hSome snap (by simpa [step, hl] using hsnap)
        rw [hl] at h3
        exact absurd h3.1 (by decide)
      · intro hn
        simp [step, hl]
  | submit nowIso =>
    cases hr : rejects s.ui with
    | true =>
      rw [step_submit_of_rejects s nowIso hr]
      exact ⟨hFetch, hIds, hSome, hNone⟩
    | false =>
      rw [step_submit_of_accepts s nowIso hr]
      refine ⟨hFetch, ?_, ?_, ?_⟩
      · simp [hIds, userMessage, List.range_succ]
      · intro snap hsnap
        simp at hsnap
        subst hsnap
        simp
      · intro hn
        simp at hn
  | replied data nowIso =>
    cases hi : s.inflight with
    | none =>
      have hs : step s (Event.replied data nowIso) = s := by simp [step, hi]
      rw [hs]
      exact ⟨hFetch, hIds, hSome, hNone⟩
    | some snap =>
      have hlen := (hSome snap hi).2
      refine ⟨by simp [step, hi, hFetch], ?_, ?_, ?_⟩
      · simp [step, hi, handleSendMessage_then, botMessage, hIds, hlen, List.range_succ]
      · intro snap2 h2
        simp [step, hi] at h2
      · intro _
        simp [step, hi, handleSendMessage_then]
  | failed nowIso =>
    cases hi : s.inflight with
    | none =>
      have hs : step s (Event.failed nowIso) = s := by simp [step, hi]
      rw [hs]
      exact ⟨hFetch, hIds, hSome, hNone⟩
    | some snap =>
      have hlen := (hSome snap hi).2
      refine ⟨by simp [step, hi, hFetch], ?_, ?_, ?_⟩
      · simp [step, hi, handleSendMessage_catch, errorMessage, hIds, hlen, List.range_succ]
      · intro snap2 h2
        simp [step, hi] at h2
      · intro _
        simp [step, hi, handleSendMessage_catch]

theorem numbered_run (es : List Event) : ∀ s : Sys, Numbered s → Numbered (run s es) := by
  induction es with
  | nil => intro s h; exact h
  | cons e es ih => intro s h; exact ih (step s e) (numbered_step s e h)

/-- C4 (amended): when hydration ends with an empty history (welcome entry,
`id` 0) or with a failed fetch before anything else happens, then after
every further sequence of events, a send still pending included, the `id`
values of `messages` are strictly increasing in list order. -/
theorem ids_increasing_from_empty_history (nowMs : Nat) (nowIso : String) (es : List Event) :
    List.Pairwise (fun a b => a < b)
        ((run (step Sys.mount (Event.historyLoaded [] nowMs nowIso)) es).ui.messages.map Msg.id) ∧
      List.Pairwise (fun a b => a < b)
        ((run (step Sys.mount Event.historyFailed) es).ui.messages.map Msg.id) := by
  constructor
  · rw [(numbered_run es _ (numbered_after_empty_history nowMs nowIso)).2.1]
    exact List.pairwise_lt_range _
  · rw [(numbered_run es _ numbered_after_failed_history).2.1]
    exact List.pairwise_lt_range _

/-- C4 (counterexample): after hydration with one persisted exchange of `id`
5, a send appends entries with `id` 1 and 2, so the `id` values 5, 1, 2 are
not increasing. -/
theorem ids_not_increasing_after_history :
    ¬ List.Pairwise (fun a b => a < b)
        ((hydrateThenSend [pizzaEntry] 0 "2024-01-01T09:59:00.000Z"
          [sushiRound]).ui.messages.map Msg.id) := by
  decide

/-! ## Recommendation Surfacer -/

/-- While a send is pending, an event other than its outcome leaves the
pending flag, the cleared venue list and the waiting handler alone. -/
theorem pending_step (s : Sys) (e : Event) (hLoad : s.ui.loading = true)
    (hVenues : s.ui.showVenues = []) (hOut : e.isOutcome = false) :
    (step s e).ui.loading = true ∧ (step s e).ui.showVenues = [] ∧
      (step s e).inflight = s.inflight := by
  cases e with
  | historyLoaded history nowMs nowIso =>
    simp only [step]
    split
    · simp [loadChatHistory_then_loading, loadChatHistory_then_showVenues, hLoad, hVenues]
    · exact ⟨hLoad, hVenues, rfl⟩
  | historyFailed =>
    simp only [step, loadChatHistory_catch]
    split <;> exact ⟨hLoad, hVenues, rfl⟩
  | typed text => simp [step, hLoad, hVenues]
  | submit nowIso =>
    rw [step_submit_of_rejects s nowIso (by simp [rejects, hLoad])]
    exact ⟨hLoad, hVenues, rfl⟩
  | replied data nowIso => simp [Event.isOutcome] at hOut
  | failed nowIso => simp [Event.isOutcome] at hOut

theorem pending_run (es : List Event) :
    ∀ s : Sys, s.ui.loading = true → s.ui.showVenues = [] →
      (∀ e ∈ es, e.isOutcome = false) →
      (run s es).ui.loading = true ∧ (run s es).ui.showVenues = [] ∧
        (run s es).inflight = s.inflight := by
  induction es with
  | nil => intro s hLoad hVenues _; exact ⟨hLoad, hVenues, rfl⟩
  | cons e es ih =>
    intro s hLoad hVenues hOut
    have h1 := pending_step s e hLoad hVenues (hOut e (List.mem_cons_self _ _))
    have h2 := ih (step s e) h1.1 h1.2.1 (fun x hx => hOut x (List.mem_cons_of_mem _ hx))
    rw [run_cons]
    exact ⟨h2.1, h2.2.1, h2.2.2.trans h1.2.2⟩

/-- C6: when a send is accepted, whatever `showVenues` held, `showVenues` is
empty right after the submit, stays empty through every sequence of events
that come before the outcome of the send, and is empty after the send has
failed. -/
theorem showVenues_empty_while_pending (s : Sys) (t0 t1 : String) (es : List Event)
    (hAcc : rejects s.ui = false) (hOut : ∀ e ∈ es, e.isOutcome = false) :
    (step s (Event.submit t0)).ui.showVenues = [] ∧
      (run (step s (Event.submit t0)) es).ui.showVenues = [] ∧
      (run (step s (Event.submit t0)) (es ++ [Event.failed t1])).ui.showVenues = [] := by
  have h0 : (step s (Event.submit t0)).ui.loading = true ∧
      (step s (Event.submit t0)).ui.showVenues = [] := by
    rw [step_submit_of_accepts s t0 hAcc]
    exact ⟨rfl, rfl⟩
  have h1 := pending_run es _ h0.1 h0.2 hOut
  refine ⟨h0.2, h1.2.1, ?_⟩
  rw [run_append, run_cons, run_nil]
  simp only [step]
  split
  · exact h1.2.1
  · simpa [handleSendMessage_catch] using h1.2.1

/-- Witness of `showVenues_empty_while_pending`: the venue of an earlier reply
is on display, a second send is accepted, the user presses submit again while
it is pending, and the send fails. -/
theorem showVenues_empty_while_pending_witness :
    (run (step (run (hydrateThenSend [] 0 "2024-01-01T09:59:00.000Z" [sushiRound])
          [Event.typed "more"]) (Event.submit "2024-01-01T10:01:00.000Z"))
        ([Event.submit "2024-01-01T10:01:01.000Z"] ++
          [Event.failed "2024-01-01T10:01:30.000Z"])).ui.showVenues = [] :=
  (showVenues_empty_while_pending
    (run (hydrateThenSend [] 0 "2024-01-01T09:59:00.000Z" [sushiRound]) [Event.typed "more"])
    "2024-01-01T10:01:00.000Z" "2024-01-01T10:01:30.000Z"
    [Event.submit "2024-01-01T10:01:01.000Z"] (by decide) (by decide)).2.2

/-- C7: when a send is accepted and, after any events that are not its
outcome, its reply arrives, `showVenues` is exactly the venue list of that
reply, in the same order, and is empty when the reply has no venues: nothing
of what was displayed before the send is kept. -/
theorem showVenues_after_reply (s : Sys) (t0 t1 : String) (es : List Event) (data : Reply)
    (hAcc : rejects s.ui = false) (hOut : ∀ e ∈ es, e.isOutcome = false) :
    (run (step s (Event.submit t0)) (es ++ [Event.replied data t1])).ui.showVenues =
      data.venues.getD [] := by
  have h0 : (step s (Event.submit t0)).ui.loading = true ∧
      (step s (Event.submit t0)).ui.showVenues = [] ∧
      (step s (Event.submit t0)).inflight = some s.ui := by
    rw [step_submit_of_accepts s t0 hAcc]
    exact ⟨rfl, rfl, rfl⟩
  have h1 := pending_run es _ h0.1 h0.2.1 hOut
  have hInf : (run (step s (Event.submit t0)) es).inflight = some s.ui := h1.2.2.trans h0.2.2
  have hVen : (run (step s (Event.submit t0)) es).ui.showVenues = [] := h1.2.1
  rw [run_append, run_cons, run_nil]
  generalize run (step s (Event.submit t0)) es = mid at hInf hVen
  simp only [step, hInf, handleSendMessage_then, hVen]
  cases hv : data.venues with
  | none => rfl
  | some venues =>
    cases venues with
    | nil => rfl
    | cons v vs => simp

/-- Witness of `showVenues_after_reply`: the scenario of the spec, where the
reply carries the single venue Sushi Bar. -/
theorem showVenues_after_reply_witness :
    (run (step (run (step Sys.mount (Event.historyLoaded [] 0 "2024-01-01T09:59:00.000Z"))
          [Event.typed "sushi near me"]) (Event.submit sushiRound.t0))
        ([] ++ [Event.replied sushiRound.data sushiRound.t1])).ui.showVenues = [sushiBar] :=
  showVenues_after_reply
    (run (step Sys.mount (Event.historyLoaded [] 0 "2024-01-01T09:59:00.000Z"))
      [Event.typed "sushi near me"])
    sushiRound.t0 sushiRound.t1 [] sushiRound.data (by decide) (by decide)

/-! ## Rejected sends -/

/-- C8: when the input text is empty or holds only whitespace, submitting in
any state changes nothing: `messages`, `sessionId`, `showVenues`, `loading`
and every other cell are as before, the handler returns before the request,
and the list of backend requests made is as before. -/
theorem blank_send_no_effect (s : Sys) (t0 : String)
    (hBlank : ∀ c ∈ s.ui.inputMessage.data, isWhiteSpace c = true) :
    handleSendMessage_begin s.ui t0 = none ∧ step s (Event.submit t0) = s ∧
      (step s (Event.submit t0)).sent = s.sent := by
  have hRej : rejects s.ui = true := by
    simp [rejects, blank_of_all_whiteSpace s.ui.inputMessage hBlank]
  rw [step_submit_of_rejects s t0 hRej]
  exact ⟨begin_of_rejects s.ui t0 hRej, rfl, rfl⟩

/-- Witness of `blank_send_no_effect`: a text of two spaces and a tab, typed
after the welcome exchange. -/
theorem blank_send_no_effect_witness :
    step (run Sys.mount [Event.historyLoaded [] 0 "2024-01-01T09:59:00.000Z", Event.typed "  \t"])
        (Event.submit "2024-01-01T10:00:00.000Z") =
      run Sys.mount [Event.historyLoaded [] 0 "2024-01-01T09:59:00.000Z", Event.typed "  \t"] :=
  (blank_send_no_effect
    (run Sys.mount [Event.historyLoaded [] 0 "2024-01-01T09:59:00.000Z", Event.typed "  \t"])
    "2024-01-01T10:00:00.000Z" (by decide)).2.1

/-- C9: while a send is pending (`loading` true), submitting again changes
nothing, whatever the input text: `messages` with its pending entry,
`sessionId`, `showVenues`, `loading` and the waiting handler are as before,
and no second backend request is made. -/
theorem busy_send_no_effect (s : Sys) (t0 : String) (hBusy : s.ui.loading = true) :
    handleSendMessage_begin s.ui t0 = none ∧ step s (Event.submit t0) = s ∧
      (step s (Event.submit t0)).sent = s.sent := by
  have hRej : rejects s.ui = true := by simp [rejects, hBusy]
  rw [step_submit_of_rejects s t0 hRej]
  exact ⟨begin_of_rejects s.ui t0 hRej, rfl, rfl⟩

/-- Witness of `busy_send_no_effect`: a second submit one second after the
first, before any reply. -/
theorem busy_send_no_effect_witness :
    (run Sys.mount [Event.historyLoaded [] 0 "2024-01-01T09:59:00.000Z",
        Event.typed "sushi near me", Event.submit "2024-01-01T10:00:00.000Z"]).ui.loading = true ∧
      step (run Sys.mount [Event.historyLoaded [] 0 "2024-01-01T09:59:00.000Z",
          Event.typed "sushi near me", Event.submit "2024-01-01T10:00:00.000Z"])
        (Event.submit "2024-01-01T10:00:01.000Z") =
      run Sys.mount [Event.historyLoaded [] 0 "2024-01-01T09:59:00.000Z",
        Event.typed "sushi near me", Event.submit "2024-01-01T10:00:00.000Z"] :=
  ⟨by decide,
    (busy_send_no_effect
      (run Sys.mount [Event.historyLoaded [] 0 "2024-01-01T09:59:00.000Z",
        Event.typed "sushi near me", Event.submit "2024-01-01T10:00:00.000Z"])
      "2024-01-01T10:00:01.000Z" (by decide)).2.1⟩

/-! ## Target of an answer rating -/

/-- C10 (amended): the answer-rating call made for the entry `msg` at
position `index` of `messages` passes `msg.chat_id || index` as target id:
the entry's `chat_id` when it has one that is not 0, and the entry's position
otherwise.  An entry without `chat_id` can be rated all the same, and its call
carries the position. -/
theorem rateCall_target (msg : Msg) (index : Nat) (st : MessageState)
    (hScore : 0 < st.userRating) :
    (∀ n, msg.chat_id = some n → n ≠ 0 →
        rateCall msg index st =
          some { chat_id := n, rating := st.userRating, feedback := st.feedback }) ∧
      (msg.chat_id = none ∨ msg.chat_id = some 0 →
        rateCall msg index st =
          some { chat_id := index, rating := st.userRating, feedback := st.feedback }) := by
  constructor
  · intro n hn hn0
    simp [rateCall, submitRating, hScore, onRate, handleRateAnswer, rateTarget, hn, hn0]
  · intro h
    rcases h with h | h <;>
      simp [rateCall, submitRating, hScore, onRate, handleRateAnswer, rateTarget, h]

/-- Witness of `rateCall_target`: the reply entry of the spec's scenario,
at position 2 with `chat_id` 2, rated with four stars. -/
theorem rateCall_target_witness :
    rateCall (botMessage { State.initial with
          messages := [welcomeMessage "session_0" "2024-01-01T09:59:00.000Z"],
          inputMessage := "sushi near me" } sushiRound.data sushiRound.t1)
        2 { showRating := true, userRating := 4, feedback := "good" } =
      some { chat_id := 2, rating := 4, feedback := "good" } :=
  (rateCall_target _ 2 { showRating := true, userRating := 4, feedback := "good" }
    (by decide)).1 2 rfl (by decide)

/-- C10 (counterexample): the welcome entry has no `chat_id`, is rendered
as one assistant bubble with the rate button, and rating it with five stars
calls the rating backend with target id 0, its position. -/
theorem welcome_entry_rated_by_position :
    (step Sys.mount (Event.historyLoaded [] 0 "2024-01-01T09:59:00.000Z")).ui.messages =
        [welcomeMessage "session_0" "2024-01-01T09:59:00.000Z"] ∧
      (welcomeMessage "session_0" "2024-01-01T09:59:00.000Z").chat_id = none ∧
      renderEntry (welcomeMessage "session_0" "2024-01-01T09:59:00.000Z") =
        [some (Bubble.bot welcomeText true)] ∧
      rateCall (welcomeMessage "session_0" "2024-01-01T09:59:00.000Z") 0
          { handleRate 0 MessageState.initial with userRating := 5 } =
        some { chat_id := 0, rating := 5, feedback := "" } := by
  decide

/-! ## Successful send -/

/-- C11 (counterexample): in the scenario of the spec the backend assigns
exchange id 42, and the reply entry of the ledger gets `chat_id` 2. -/
theorem reply_chat_id_not_backend_id :
    sushiRound.data.chat_id = some 42 ∧
      (hydrateThenSend [] 0 "2024-01-01T09:59:00.000Z" [sushiRound]).ui.messages.getLast?.bind
          Msg.chat_id = some 2 ∧
      (hydrateThenSend [] 0 "2024-01-01T09:59:00.000Z" [sushiRound]).ui.messages.getLast?.bind
          Msg.chat_id ≠ sushiRound.data.chat_id := by
  decide

/-- C13 (the code at the failing input): after the welcome exchange the
identity is "session_0"; the user entry appended by an accepted send of
"sushi near me" has no `session_id` at all, while the error entry appended
when that send fails carries the identity. -/
theorem user_entry_has_no_session_id :
    (run Sys.mount [Event.historyLoaded [] 0 "2024-01-01T09:59:00.000Z",
        Event.typed "sushi near me", Event.submit "2024-01-01T10:00:00.000Z"]).ui.sessionId =
        some "session_0" ∧
      (run Sys.mount [Event.historyLoaded [] 0 "2024-01-01T09:59:00.000Z",
        Event.typed "sushi near me",
        Event.submit "2024-01-01T10:00:00.000Z"]).ui.messages.getLast?.map Msg.session_id =
        some none ∧
      (run Sys.mount [Event.historyLoaded [] 0 "2024-01-01T09:59:00.000Z",
        Event.typed "sushi near me", Event.submit "2024-01-01T10:00:00.000Z",
        Event.failed "2024-01-01T10:00:30.000Z"]).ui.messages.getLast?.map Msg.session_id =
        some (some (some "session_0")) := by
  decide

/-! ## Hydration -/

/-- Ledger and identity after hydration with a non-empty history. -/
theorem loadChatHistory_then_of_ne_nil (history : List Msg) (nowMs : Nat) (nowIso : String)
    (cur : State) (hne : history ≠ []) :
    (loadChatHistory_then history nowMs nowIso cur).messages = history.reverse ∧
      (loadChatHistory_then history nowMs nowIso cur).sessionId =
        (history.reverse.head?.bind fun m => m.session_id).join := by
  have hlen : history.length > 0 := List.length_pos.mpr hne
  simp [loadChatHistory_then, hlen]

/-- C14: for every non-empty fetched history, after hydration the identity
`sessionId` is the `session_id` of `messages[0]`, the first entry of the
hydrated ledger in display order, which is the last element of the history
as fetched; no assumption is made on the session ids of the other entries. -/
theorem hydrated_identity_is_first_entry (history : List Msg) (nowMs : Nat) (nowIso : String)
    (cur : State) (hne : history ≠ []) :
    ∃ m, (loadChatHistory_then history nowMs nowIso cur).messages[0]? = some m ∧
      history.getLast? = some m ∧
      (loadChatHistory_then history nowMs nowIso cur).sessionId = m.session_id.join := by
  have h := loadChatHistory_then_of_ne_nil history nowMs nowIso cur hne
  have hrev : history.reverse ≠ [] := by simpa using hne
  obtain ⟨m, ms, hm⟩ := List.exists_cons_of_ne_nil hrev
  refine ⟨m, ?_, ?_, ?_⟩
  · rw [h.1, hm]
    simp
  · have : history = (m :: ms).reverse := by rw [← hm, List.reverse_reverse]
    rw [this]
    simp
  · rw [h.2, hm]
    rfl

/-- Witness of `hydrated_identity_is_first_entry`: a history of two exchanges
of different sessions, newest first as fetched. -/
theorem hydrated_identity_is_first_entry_witness :
    ∃ m, (loadChatHistory_then [ramenEntry, pizzaEntry] 0 "2024-01-01T09:59:00.000Z"
          State.initial).messages[0]? = some m ∧
      [ramenEntry, pizzaEntry].getLast? = some m ∧
      (loadChatHistory_then [ramenEntry, pizzaEntry] 0 "2024-01-01T09:59:00.000Z"
          State.initial).sessionId = m.session_id.join :=
  hydrated_identity_is_first_entry [ramenEntry, pizzaEntry] 0 "2024-01-01T09:59:00.000Z"
    State.initial (by decide)

/-- C15 (amended): for every non-empty fetched history whose entries all
carry the same session id, after hydration the identity `sessionId` is the
`session_id` of the last entry of the hydrated ledger in display order. -/
theorem hydrated_identity_is_last_entry_of_one_session (history : List Msg) (nowMs : Nat)
    (nowIso : String) (cur : State) (sid : Option (Option String)) (hne : history ≠ [])
    (hSame : ∀ m ∈ history, m.session_id = sid) :
    ∃ m, (loadChatHistory_then history nowMs nowIso cur).messages.getLast? = some m ∧
      (loadChatHistory_then history nowMs nowIso cur).sessionId = m.session_id.join := by
  have h := loadChatHistory_then_of_ne_nil history nowMs nowIso cur hne
  have hrev : history.reverse ≠ [] := by simpa using hne
  obtain ⟨a, as, ha⟩ := List.exists_cons_of_ne_nil hne
  obtain ⟨m, ms, hm⟩ := List.exists_cons_of_ne_nil hrev
  have hmMem : m ∈ history := by
    have : m ∈ history.reverse := by rw [hm]; exact List.mem_cons_self _ _
    simpa using this
  have haMem : a ∈ history := by rw [ha]; exact List.mem_cons_self _ _
  refine ⟨a, ?_, ?_⟩
  · rw [h.1, ha]
    simp
  · rw [h.2, hm]
    show (m.session_id).join = a.session_id.join
    rw [hSame m hmMem, hSame a haMem]

/-- Witness of `hydrated_identity_is_last_entry_of_one_session`: a history of
two exchanges of session "s1". -/
theorem hydrated_identity_is_last_entry_of_one_session_witness :
    ∃ m, (loadChatHistory_then [pizzaEntry, { pizzaEntry with id := 4, message := "pasta" }] 0
          "2024-01-01T09:59:00.000Z" State.initial).messages.getLast? = some m ∧
      (loadChatHistory_then [pizzaEntry, { pizzaEntry with id := 4, message := "pasta" }] 0
          "2024-01-01T09:59:00.000Z" State.initial).sessionId = m.session_id.join :=
  hydrated_identity_is_last_entry_of_one_session
    [pizzaEntry, { pizzaEntry with id := 4, message := "pasta" }] 0
    "2024-01-01T09:59:00.000Z" State.initial (some (some "s1")) (by decide) (by decide)

/-- C15 (counterexample): the history holds, newest first, an exchange of
session "s2" and an older one of session "s1"; after hydration the last
entry of the ledger is the one of session "s2" and the identity is "s1". -/
theorem hydrated_identity_not_last_entry :
    (loadChatHistory_then [ramenEntry, pizzaEntry] 0 "2024-01-01T09:59:00.000Z"
        State.initial).sessionId = some "s1" ∧
      ((loadChatHistory_then [ramenEntry, pizzaEntry] 0 "2024-01-01T09:59:00.000Z"
        State.initial).messages.getLast?.bind fun m => m.session_id.join) = some "s2" := by
  decide

/-- C16: when the history fetch returns an empty sequence, the identity
becomes `session_<timestamp>`, which is not the empty string, and the ledger
becomes exactly one welcome entry with empty `message`, non-empty `response`,
`id` 0, no `chat_id` and that same identity as `session_id`. -/
theorem empty_history_welcome (nowMs : Nat) (nowIso : String) (cur : State) :
    (loadChatHistory_then [] nowMs nowIso cur).sessionId =
        some ("session_" ++ toString nowMs) ∧
      "session_" ++ toString nowMs ≠ "" ∧
      ∃ m, (loadChatHistory_then [] nowMs nowIso cur).messages = [m] ∧
        m.message = "" ∧ m.response ≠ "" ∧ m.id = 0 ∧ m.chat_id = none ∧
        m.session_id = some (some ("session_" ++ toString nowMs)) := by
  refine ⟨by simp [loadChatHistory_then], ?_, welcomeMessage _ nowIso, ?_, rfl, ?_, rfl, rfl, rfl⟩
  · intro h
    have hlen := congrArg String.length h
    rw [String.length_append] at hlen
    have h8 : "session_".length = 8 := by decide
    have h0 : "".length = 0 := by decide
    omega
  · simp [loadChatHistory_then]
  · show welcomeText ≠ ""
    decide

/-! ## Rating workflow -/

/-- C17: `submitRating` with draft score 0 does nothing: `onRate` is not
called and the cells, `showRating` included, are as before; with a draft
score from 1 to 5 it calls `onRate` with that score and the current feedback
text, and pressing submit in the open modal makes exactly that one call. -/
theorem submitRating_guard (st : MessageState) :
    (st.userRating = 0 → submitRating st = (st, none)) ∧
      (1 ≤ st.userRating → st.userRating ≤ 5 →
        (submitRating st).2 = some (st.userRating, st.feedback)) ∧
      (st.showRating = true → 1 ≤ st.userRating → st.userRating ≤ 5 →
        (ratingRun st [RatingEvent.submit]).2 = [(st.userRating, st.feedback)]) := by
  refine ⟨?_, ?_, ?_⟩
  · intro h0
    simp [submitRating, h0]
  · intro h1 _
    have hpos : st.userRating > 0 := h1
    simp [submitRating, hpos]
  · intro hOpen h1 _
    have hpos : st.userRating > 0 := h1
    simp [ratingRun, ratingStep, hOpen, submitRating, hpos]

/-- Witness of `submitRating_guard`: an open modal with three stars and a
comment. -/
theorem submitRating_guard_witness :
    (ratingRun { showRating := true, userRating := 3, feedback := "tasty" }
        [RatingEvent.submit]).2 = [(3, "tasty")] :=
  (submitRating_guard { showRating := true, userRating := 3, feedback := "tasty" }).2.2
    rfl (by decide) (by decide)

/-- C18 (amended): when the backend rejects or fails an answer-rating
submission, the failure is only logged and the cells of the message stay as
the submission left them, the same as after a success: the modal is closed
(`showRating` false), the feedback text is cleared, the score is kept, and
the one call made is not repeated. -/
theorem rating_failure_leaves_modal_closed (st : MessageState)
    (hOpen : st.showRating = true) (hScore : 0 < st.userRating) :
    ratingRun st [RatingEvent.submit, RatingEvent.rateFailed] =
        ({ showRating := false, userRating := st.userRating, feedback := "" },
          [(st.userRating, st.feedback)]) ∧
      ratingRun st [RatingEvent.submit, RatingEvent.rateFailed] =
        ratingRun st [RatingEvent.submit, RatingEvent.rateSucceeded] := by
  simp [ratingRun, ratingStep, hOpen, submitRating, hScore]

/-- Witness of `rating_failure_leaves_modal_closed`: four stars and the
comment "good". -/
theorem rating_failure_leaves_modal_closed_witness :
    ratingRun { showRating := true, userRating := 4, feedback := "good" }
        [RatingEvent.submit, RatingEvent.rateFailed] =
      ({ showRating := false, userRating := 4, feedback := "" }, [(4, "good")]) :=
  (rating_failure_leaves_modal_closed { showRating := true, userRating := 4, feedback := "good" }
    rfl (by decide)).1

/-- C18 (counterexample): four stars and the comment "good" are submitted and
the backend call fails; afterwards the modal is not shown and the feedback
text is empty. -/
theorem rating_failure_loses_draft :
    (ratingRun MessageState.initial
        [RatingEvent.openModal, RatingEvent.pickStar 4, RatingEvent.typeFeedback "good",
          RatingEvent.submit, RatingEvent.rateFailed]).1.showRating = false ∧
      (ratingRun MessageState.initial
        [RatingEvent.openModal, RatingEvent.pickStar 4, RatingEvent.typeFeedback "good",
          RatingEvent.submit, RatingEvent.rateFailed]).1.feedback ≠ "good" ∧
      (ratingRun MessageState.initial
        [RatingEvent.openModal, RatingEvent.pickStar 4, RatingEvent.typeFeedback "good",
          RatingEvent.submit, RatingEvent.rateFailed]).2 = [(4, "good")] := by
  decide

/-- C19 (the code at the failing input): the modal is opened, four stars and
the comment "too slow" are entered, and the modal is cancelled; when it is
opened again the score is 0 but the feedback text is still "too slow".  After
a submit instead of the cancel, the reopened modal has empty feedback. -/
theorem cancelled_feedback_survives :
    (ratingRun MessageState.initial
        [RatingEvent.openModal, RatingEvent.pickStar 4, RatingEvent.typeFeedback "too slow",
          RatingEvent.cancel, RatingEvent.openModal]).1 =
        { showRating := true, userRating := 0, feedback := "too slow" } ∧
      (ratingRun MessageState.initial
        [RatingEvent.openModal, RatingEvent.pickStar 4, RatingEvent.typeFeedback "too slow",
          RatingEvent.submit, RatingEvent.openModal]).1 =
        { showRating := true, userRating := 0, feedback := "" } := by
  decide

/-! ## Range of submitted scores -/

theorem mem_stars (max v : Nat) : v ∈ stars max ↔ 1 ≤ v ∧ v ≤ max := by
  simp only [stars, List.mem_map, List.mem_range]
  constructor
  · rintro ⟨i, hi, rfl⟩
    omega
  · rintro ⟨h1, h2⟩
    exact ⟨v - 1, by omega, by omega⟩

theorem ratingStep_bound (st : MessageState) (e : RatingEvent) (h : st.userRating ≤ 5) :
    (ratingStep st e).1.userRating ≤ 5 ∧
      ∀ c, (ratingStep st e).2 = some c → 1 ≤ c.1 ∧ c.1 ≤ 5 := by
  cases e with
  | openModal => simp [ratingStep, handleRate]
  | pickStar star =>
    by_cases hm : star ∈ stars 5
    · have hle := ((mem_stars 5 star).mp hm).2
      cases hsr : st.showRating <;> simp [ratingStep, hsr, hm, handleClick, hle, h]
    · simp [ratingStep, hm, h]
  | typeFeedback text =>
    simp only [ratingStep]
    split <;> simp [h]
  | cancel =>
    simp only [ratingStep]
    split <;> simp [h]
  | submit =>
    simp only [ratingStep]
    split
    · simp only [submitRating]
      split
      · rename_i hpos
        refine ⟨h, ?_⟩
        intro c hc
        simp at hc
        subst hc
        exact ⟨hpos, h⟩
      · simp [h]
    · simp [h]
  | rateSucceeded => simp [ratingStep, h]
  | rateFailed => simp [ratingStep, h]

theorem ratingRun_bound (es : List RatingEvent) :
    ∀ st : MessageState, st.userRating ≤ 5 →
      ∀ c ∈ (ratingRun st es).2, 1 ≤ c.1 ∧ c.1 ≤ 5 := by
  induction es with
  | nil => intro st _ c hc; simp [ratingRun] at hc
  | cons e es ih =>
    intro st h c hc
    have hb := ratingStep_bound st e h
    simp only [ratingRun, List.mem_append, Option.mem_toList, Option.mem_def] at hc
    rcases hc with hc | hc
    · exact hb.2 c hc
    · exact ih _ hb.1 c hc

/-- C20: every answer rating that the rating workflow of a message sends to
the backend, after any sequence of events, and every venue rating sent from
the sidebar carries a score from 1 to 5; a star control that is not read-only
emits only values from 1 to `max`, and a read-only one emits nothing. -/
theorem submitted_scores_in_range :
    (∀ (msg : Msg) (index : Nat) (es : List RatingEvent) (req : RateRequest),
        req ∈ (ratingRun MessageState.initial es).2.map (fun c => onRate msg index c.1 c.2) →
          1 ≤ req.rating ∧ req.rating ≤ 5) ∧
      (∀ (venueId star : Nat) (review : Option String) (req : VenueRateRequest),
        venueStarClick venueId star review = some req → 1 ≤ req.rating ∧ req.rating ≤ 5) ∧
      (∀ max v : Nat, v ∈ ratingEmits false true max → 1 ≤ v ∧ v ≤ max) ∧
      (∀ (hasOnChange : Bool) (max : Nat), ratingEmits true hasOnChange max = []) := by
  refine ⟨?_, ?_, ?_, ?_⟩
  · intro msg index es req hreq
    simp only [List.mem_map] at hreq
    obtain ⟨c, hc, rfl⟩ := hreq
    exact ratingRun_bound es MessageState.initial (by decide) c hc
  · intro venueId star review req hreq
    by_cases hm : star ∈ stars 5
    · have hb := (mem_stars 5 star).mp hm
      have hpos : star > 0 := hb.1
      simp [venueStarClick, hm, handleClick, venueRatingChange, hpos, handleRateVenue] at hreq
      rw [← hreq]
      exact hb
    · simp [venueStarClick, hm] at hreq
  · intro max v hv
    simp only [ratingEmits, List.mem_filterMap, handleClick] at hv
    obtain ⟨a, ha, hav⟩ := hv
    simp at hav
    subst hav
    exact (mem_stars max a).mp ha
  · intro hasOnChange max
    simp [ratingEmits, handleClick]

/-- Witness of `submitted_scores_in_range`: the reply entry at position 2 is
rated with four stars. -/
theorem submitted_scores_in_range_witness :
    1 ≤ (onRate pizzaEntry 2 4 "").rating ∧ (onRate pizzaEntry 2 4 "").rating ≤ 5 :=
  submitted_scores_in_range.1 pizzaEntry 2
    [RatingEvent.openModal, RatingEvent.pickStar 4, RatingEvent.submit]
    (onRate pizzaEntry 2 4 "") (by decide)

/-! ## Outcome of a rejected send -/

/-- C21 (amended): send does not report why it rejected an input.  With a
blank text and with a send outstanding alike, `handleSendMessage` returns at
line 59 with nothing done, so the two rejections have one and the same
outcome; an accepted send differs from both in that it does not return
there. -/
theorem rejections_have_one_outcome (s1 s2 : Sys) (t1 t2 : String)
    (hBlank : blank s1.ui.inputMessage = true) (hBusy : s2.ui.loading = true) :
    handleSendMessage_begin s1.ui t1 = handleSendMessage_begin s2.ui t2 ∧
      step s1 (Event.submit t1) = s1 ∧ step s2 (Event.submit t2) = s2 ∧
      ∀ (s3 : State) (t3 : String), rejects s3 = false →
        handleSendMessage_begin s3 t3 ≠ handleSendMessage_begin s1.ui t1 := by
  have h1 : rejects s1.ui = true := by simp [rejects, hBlank]
  have h2 : rejects s2.ui = true := by simp [rejects, hBusy]
  refine ⟨?_, step_submit_of_rejects s1 t1 h1, step_submit_of_rejects s2 t2 h2, ?_⟩
  · rw [begin_of_rejects s1.ui t1 h1, begin_of_rejects s2.ui t2 h2]
  · intro s3 t3 h3
    rw [begin_of_rejects s1.ui t1 h1, begin_of_accepts s3 t3 h3]
    simp

/-- Witness of `rejections_have_one_outcome`: an empty input after the
welcome exchange, and a second submit while "sushi near me" is pending. -/
theorem rejections_have_one_outcome_witness :
    handleSendMessage_begin
        (run Sys.mount [Event.historyLoaded [] 0 "2024-01-01T09:59:00.000Z"]).ui
        "2024-01-01T10:00:00.000Z" =
      handleSendMessage_begin
        (run Sys.mount [Event.historyLoaded [] 0 "2024-01-01T09:59:00.000Z",
          Event.typed "sushi near me", Event.submit "2024-01-01T10:00:00.000Z"]).ui
        "2024-01-01T10:00:01.000Z" :=
  (rejections_have_one_outcome
    (run Sys.mount [Event.historyLoaded [] 0 "2024-01-01T09:59:00.000Z"])
    (run Sys.mount [Event.historyLoaded [] 0 "2024-01-01T09:59:00.000Z",
      Event.typed "sushi near me", Event.submit "2024-01-01T10:00:00.000Z"])
    "2024-01-01T10:00:00.000Z" "2024-01-01T10:00:01.000Z" (by decide) (by decide)).1

/-- C21 (counterexample): a submit with the blank text of two spaces and a
submit while a send is outstanding end in the same outcome, the bare return
of line 59, and each leaves its state as it was. -/
theorem blank_and_busy_not_told_apart :
    blank "  " = true ∧
      (run Sys.mount [Event.historyLoaded [] 0 "2024-01-01T09:59:00.000Z",
        Event.typed "sushi near me", Event.submit "2024-01-01T10:00:00.000Z"]).ui.loading = true ∧
      handleSendMessage_begin
          (run Sys.mount [Event.historyLoaded [] 0 "2024-01-01T09:59:00.000Z",
            Event.typed "  "]).ui "2024-01-01T10:00:00.000Z" =
        handleSendMessage_begin
          (run Sys.mount [Event.historyLoaded [] 0 "2024-01-01T09:59:00.000Z",
            Event.typed "sushi near me", Event.submit "2024-01-01T10:00:00.000Z"]).ui
          "2024-01-01T10:00:01.000Z" := by
  decide

/-! ## Reply handling -/

/-- C22 (amended): reply handling does not look for a provisional exchange
and reports no fault: whenever a reply or a failure is handled, the reply
entry or the error entry is appended to whatever the ledger holds at that
time, so the ledger grows by exactly one entry. -/
theorem outcome_always_appends (s : Sys) (snap : State) (data : Reply) (t1 : String)
    (hIn : s.inflight = some snap) :
    (step s (Event.replied data t1)).ui.messages = s.ui.messages ++ [botMessage snap data t1] ∧
      (step s (Event.failed t1)).ui.messages = s.ui.messages ++ [errorMessage snap t1] ∧
      (step s (Event.replied data t1)).ui.messages.length = s.ui.messages.length + 1 ∧
      (step s (Event.failed t1)).ui.messages.length = s.ui.messages.length + 1 := by
  simp [step, hIn, handleSendMessage_then, handleSendMessage_catch]

/-- Witness of `outcome_always_appends`: the reply to a send that was
accepted before the history fetch completed. -/
theorem outcome_always_appends_witness :
    (step (run Sys.mount [Event.typed "hi", Event.submit "2024-01-01T10:00:00.000Z",
          Event.historyLoaded [pizzaEntry] 0 "2024-01-01T10:00:01.000Z"])
        (Event.replied sushiRound.data sushiRound.t1)).ui.messages.length =
      (run Sys.mount [Event.typed "hi", Event.submit "2024-01-01T10:00:00.000Z",
          Event.historyLoaded [pizzaEntry] 0 "2024-01-01T10:00:01.000Z"]).ui.messages.length + 1 :=
  (outcome_always_appends
    (run Sys.mount [Event.typed "hi", Event.submit "2024-01-01T10:00:00.000Z",
      Event.historyLoaded [pizzaEntry] 0 "2024-01-01T10:00:01.000Z"])
    { State.initial with inputMessage := "hi" } sushiRound.data sushiRound.t1
    (by decide)).2.2.1

/-- C22 (counterexample): a send is accepted, then the history fetch
completes and replaces the ledger by one persisted exchange, so no entry with
empty `response` is left; the reply that arrives next is appended all the
same and the ledger grows from one entry to two. -/
theorem reply_without_provisional_entry :
    emptyResponses (run Sys.mount [Event.typed "hi", Event.submit "2024-01-01T10:00:00.000Z",
        Event.historyLoaded [pizzaEntry] 0 "2024-01-01T10:00:01.000Z"]).ui.messages = 0 ∧
      (run Sys.mount [Event.typed "hi", Event.submit "2024-01-01T10:00:00.000Z",
        Event.historyLoaded [pizzaEntry] 0 "2024-01-01T10:00:01.000Z"]).ui.messages.length = 1 ∧
      (run Sys.mount [Event.typed "hi", Event.submit "2024-01-01T10:00:00.000Z",
        Event.historyLoaded [pizzaEntry] 0 "2024-01-01T10:00:01.000Z",
        Event.replied sushiRound.data sushiRound.t1]).ui.messages.length = 2 := by
  decide

/-! ## Pending flag -/

theorem pending_run_sent (es : List Event) :
    ∀ s : Sys, s.ui.loading = true → s.ui.showVenues = [] →
      (∀ e ∈ es, e.isOutcome = false) → (run s es).sent = s.sent := by
  induction es with
  | nil => intro s _ _ _; rfl
  | cons e es ih =>
    intro s hLoad hVenues hOut
    have hOutE := hOut e (List.mem_cons_self _ _)
    have h1 := pending_step s e hLoad hVenues hOutE
    have hSent : (step s e).sent = s.sent := by
      cases e with
      | historyLoaded history nowMs nowIso => simp only [step]; split <;> rfl
      | historyFailed => simp only [step]; split <;> rfl
      | typed text => simp [step, hLoad]
      | submit nowIso => rw [step_submit_of_rejects s nowIso (by simp [rejects, hLoad])]
      | replied data nowIso => simp [Event.isOutcome] at hOutE
      | failed nowIso => simp [Event.isOutcome] at hOutE
    rw [run_cons, ih (step s e) h1.1 h1.2.1 (fun x hx => hOut x (List.mem_cons_of_mem _ hx)),
      hSent]

/-- C23: for every accepted send, `loading` is true right after the submit
and through every sequence of events that come before its outcome, and false
once the reply or the failure has been handled; after a failure the request
made for the send is still the last one made, and a non-blank text typed
next is accepted. -/
theorem loading_until_outcome (s : Sys) (t0 t1 : String) (es : List Event) (data : Reply)
    (text : String) (hAcc : rejects s.ui = false) (hOut : ∀ e ∈ es, e.isOutcome = false)
    (hText : blank text = false) :
    (run (step s (Event.submit t0)) es).ui.loading = true ∧
      (run (step s (Event.submit t0)) (es ++ [Event.replied data t1])).ui.loading = false ∧
      (run (step s (Event.submit t0)) (es ++ [Event.failed t1])).ui.loading = false ∧
      (run (step s (Event.submit t0)) (es ++ [Event.failed t1])).sent =
        s.sent ++ [{ message := s.ui.inputMessage, session_id := s.ui.sessionId }] ∧
      rejects (run (step s (Event.submit t0))
        (es ++ [Event.failed t1, Event.typed text])).ui = false := by
  have h0 : (step s (Event.submit t0)).ui.loading = true ∧
      (step s (Event.submit t0)).ui.showVenues = [] ∧
      (step s (Event.submit t0)).inflight = some s.ui ∧
      (step s (Event.submit t0)).sent =
        s.sent ++ [{ message := s.ui.inputMessage, session_id := s.ui.sessionId }] := by
    rw [step_submit_of_accepts s t0 hAcc]
    exact ⟨rfl, rfl, rfl, rfl⟩
  have h1 := pending_run es _ h0.1 h0.2.1 hOut
  have hInf : (run (step s (Event.submit t0)) es).inflight = some s.ui := h1.2.2.trans h0.2.2.1
  have hSent : (run (step s (Event.submit t0)) es).sent =
      s.sent ++ [{ message := s.ui.inputMessage, session_id := s.ui.sessionId }] :=
    (pending_run_sent es _ h0.1 h0.2.1 hOut).trans h0.2.2.2
  have hLoad := h1.1
  refine ⟨hLoad, ?_, ?_, ?_, ?_⟩
  · rw [run_append, run_cons, run_nil]
    generalize run (step s (Event.submit t0)) es = mid at hInf
    simp [step, hInf, handleSendMessage_then]
  · rw [run_append, run_cons, run_nil]
    generalize run (step s (Event.submit t0)) es = mid at hInf
    simp [step, hInf, handleSendMessage_catch]
  · rw [run_append, run_cons, run_nil]
    generalize run (step s (Event.submit t0)) es = mid at hInf hSent
    simp [step, hInf, hSent]
  · rw [run_append, run_cons, run_cons, run_nil]
    generalize run (step s (Event.submit t0)) es = mid at hInf
    simp [step, hInf, handleSendMessage_catch, rejects, hText]

/-- Witness of `loading_until_outcome`: "sushi near me" fails and "sushi" is
typed next. -/
theorem loading_until_outcome_witness :
    rejects (run (step (run Sys.mount [Event.historyLoaded [] 0 "2024-01-01T09:59:00.000Z",
          Event.typed "sushi near me"]) (Event.submit "2024-01-01T10:00:00.000Z"))
        ([] ++ [Event.failed "2024-01-01T10:00:30.000Z", Event.typed "sushi"])).ui = false :=
  (loading_until_outcome
    (run Sys.mount [Event.historyLoaded [] 0 "2024-01-01T09:59:00.000Z",
      Event.typed "sushi near me"])
    "2024-01-01T10:00:00.000Z" "2024-01-01T10:00:30.000Z" [] sushiRound.data "sushi"
    (by decide) (by decide) (by decide)).2.2.2.2

/-! ## Position as id -/

theorem id_of_numbered (s : Sys) (h : Numbered s) (i : Nat) (m : Msg)
    (hm : s.ui.messages[i]? = some m) : m.id = i := by
  have hmap : (s.ui.messages.map Msg.id)[i]? = some m.id := by
    rw [List.getElem?_map, hm]
    rfl
  rw [h.2.1] at hmap
  have hlt : i < s.ui.messages.length := by
    by_contra hge
    rw [List.getElem?_eq_none (by simpa using hge)] at hmap
    exact absurd hmap (by simp)
  rw [List.getElem?_range hlt] at hmap
  exact (Option.some.inj hmap).symm

/-! ## Rating target of the entries made by the client -/

/-- Once hydration is over, nothing but its outcome changes the component
while a send is pending. -/
theorem pending_step_eq (s : Sys) (e : Event) (hLoad : s.ui.loading = true)
    (hFetch : s.fetching = false) (hOut : e.isOutcome = false) : step s e = s := by
  cases e with
  | historyLoaded history nowMs nowIso => simp [step, hFetch]
  | historyFailed => simp [step, hFetch]
  | typed text => simp [step, hLoad]
  | submit nowIso => exact step_submit_of_rejects s nowIso (by simp [rejects, hLoad])
  | replied data nowIso => simp [Event.isOutcome] at hOut
  | failed nowIso => simp [Event.isOutcome] at hOut

theorem pending_run_eq (es : List Event) (s : Sys) (hLoad : s.ui.loading = true)
    (hFetch : s.fetching = false) (hOut : ∀ e ∈ es, e.isOutcome = false) : run s es = s := by
  induction es with
  | nil => rfl
  | cons e es ih =>
    rw [run_cons, pending_step_eq s e hLoad hFetch (hOut e (List.mem_cons_self _ _))]
    exact ih (fun x hx => hOut x (List.mem_cons_of_mem _ hx))

/-- C26 (amended): for the welcome entry, a user entry and an error entry the
target id handed to `chatAPI.rateAnswer` is the position at which the entry
is rendered, 0 for the welcome entry at the head of the ledger.  For a reply
entry it is the ledger length at the time of the send plus one, whatever the
backend returned, and that is the position of the entry when hydration was
over before the send was accepted. -/
theorem client_entry_rate_target :
    (∀ (sid t : String) (index rating : Nat) (feedback : String),
        (onRate (welcomeMessage sid t) index rating feedback).chat_id = index) ∧
      (∀ (s : State) (t : String) (index rating : Nat) (feedback : String),
        (onRate (userMessage s t) index rating feedback).chat_id = index) ∧
      (∀ (s : State) (t : String) (index rating : Nat) (feedback : String),
        (onRate (errorMessage s t) index rating feedback).chat_id = index) ∧
      (∀ (s : Sys) (t0 t1 : String) (es : List Event) (data : Reply) (rating : Nat)
          (feedback : String),
        s.fetching = false → rejects s.ui = false → (∀ e ∈ es, e.isOutcome = false) →
          (run (step s (Event.submit t0)) (es ++ [Event.replied data t1])).ui.messages =
              s.ui.messages ++ [userMessage s.ui t0, botMessage s.ui data t1] ∧
            (onRate (botMessage s.ui data t1) (s.ui.messages.length + 1) rating
              feedback).chat_id = s.ui.messages.length + 1) := by
  refine ⟨?_, ?_, ?_, ?_⟩
  · intro sid t index rating feedback
    rfl
  · intro s t index rating feedback
    rfl
  · intro s t index rating feedback
    rfl
  · intro s t0 t1 es data rating feedback hFetch hAcc hOut
    have hs := step_submit_of_accepts s t0 hAcc
    have hLoad : (step s (Event.submit t0)).ui.loading = true := by rw [hs]
    have hFetch1 : (step s (Event.submit t0)).fetching = false := by rw [hs]; exact hFetch
    constructor
    · rw [run_append, pending_run_eq es _ hLoad hFetch1 hOut, run_cons, run_nil, hs]
      simp [step, handleSendMessage_then]
    · simp [onRate, handleRateAnswer, rateTarget, botMessage]

/-- Witness of `client_entry_rate_target`: the reply entry of the spec's
scenario is rated at position 2 with target id 2. -/
theorem client_entry_rate_target_witness :
    (onRate (botMessage (run (step Sys.mount
            (Event.historyLoaded [] 0 "2024-01-01T09:59:00.000Z"))
            [Event.typed "sushi near me"]).ui sushiRound.data sushiRound.t1)
        ((run (step Sys.mount (Event.historyLoaded [] 0 "2024-01-01T09:59:00.000Z"))
            [Event.typed "sushi near me"]).ui.messages.length + 1) 5 "").chat_id =
      (run (step Sys.mount (Event.historyLoaded [] 0 "2024-01-01T09:59:00.000Z"))
        [Event.typed "sushi near me"]).ui.messages.length + 1 :=
  (client_entry_rate_target.2.2.2
    (run (step Sys.mount (Event.historyLoaded [] 0 "2024-01-01T09:59:00.000Z"))
      [Event.typed "sushi near me"])
    sushiRound.t0 sushiRound.t1 [] sushiRound.data 5 "" (by decide) (by decide)
    (by decide)).2

/-- C26 (counterexample): a send is accepted on the empty ledger before the
history fetch completes, the fetch then brings two persisted exchanges, and
the reply arrives; the reply entry is entry 2 of `messages` and rating it
passes target id 1. -/
theorem late_history_shifts_reply_entry :
    ((run Sys.mount [Event.typed "hi", Event.submit "2024-01-01T10:00:00.000Z",
        Event.historyLoaded [ramenEntry, pizzaEntry] 0 "2024-01-01T10:00:01.000Z",
        Event.replied sushiRound.data sushiRound.t1]).ui.messages[2]?.map
          fun m => (m.response, (onRate m 2 5 "").chat_id)) = some ("Try Sushi Bar", 1) := by
  decide

/-! ## Render of an entry -/

/-- C27: the render of an entry holds a user bubble only when the entry's
`isUser` is true, and that bubble shows the entry's `message`; an entry with
non-empty `message`, non-empty `response` and `isUser` not set is rendered
as exactly two assistant bubbles that both show the `response`; the welcome
entry is rendered as exactly one assistant bubble. -/
theorem render_of_entry :
    (∀ (msg : Msg) (text : String),
        some (Bubble.user text) ∈ renderEntry msg → msg.isUser = true ∧ text = msg.message) ∧
      (∀ msg : Msg, msg.message ≠ "" → msg.response ≠ "" → msg.isUser = false →
        renderEntry msg =
          [some (Bubble.bot msg.response true), some (Bubble.bot msg.response true)]) ∧
      (∀ sid t : String,
        renderEntry (welcomeMessage sid t) = [some (Bubble.bot welcomeText true)]) := by
  refine ⟨?_, ?_, ?_⟩
  · intro msg text hmem
    cases hu : msg.isUser <;> by_cases hm : msg.message = "" <;>
      by_cases hr : msg.response = "" <;>
      simp [renderEntry, renderMessage, hu, hm, hr] at hmem ⊢
    all_goals first | exact hmem.symm | exact hmem
  · intro msg hm hr hu
    simp [renderEntry, renderMessage, hm, hr, hu]
  · intro sid t
    have hw : (welcomeText == "") = false := by decide
    have hw2 : (welcomeText != "") = true := by decide
    simp [renderEntry, renderMessage, welcomeMessage, hw, hw2]

/-- Witness of `render_of_entry`: a persisted exchange of the history shows
its response twice and its user text not at all. -/
theorem render_of_entry_witness :
    renderEntry pizzaEntry =
      [some (Bubble.bot pizzaEntry.response true), some (Bubble.bot pizzaEntry.response true)] :=
  render_of_entry.2.1 pizzaEntry (by decide) (by decide) rfl

/-! ## History load as a replacement -/

/-- C28: when the history fetch completes with a non-empty sequence `h`, the
ledger becomes the reversal of `h` whatever it held before: it has the length
of `h`, its entry `i` is entry `|h| - 1 - i` of `h`, the identity becomes the
`session_id` of the last element of `h` as fetched, and an entry the ledger
held before that is not in `h` is no longer in the ledger. -/
theorem history_load_replaces_ledger (s : Sys) (history : List Msg) (nowMs : Nat)
    (nowIso : String) (hFetch : s.fetching = true) (hne : history ≠ []) :
    (step s (Event.historyLoaded history nowMs nowIso)).ui.messages = history.reverse ∧
      (step s (Event.historyLoaded history nowMs nowIso)).ui.messages.length = history.length ∧
      (∀ i, i < history.length →
        (step s (Event.historyLoaded history nowMs nowIso)).ui.messages[i]? =
          history[history.length - 1 - i]?) ∧
      (∃ m, history.getLast? = some m ∧
        (step s (Event.historyLoaded history nowMs nowIso)).ui.sessionId = m.session_id.join) ∧
      (∀ m ∈ s.ui.messages, m ∉ history →
        m ∉ (step s (Event.historyLoaded history nowMs nowIso)).ui.messages) := by
  have h := loadChatHistory_then_of_ne_nil history nowMs nowIso s.ui hne
  have hstep : (step s (Event.historyLoaded history nowMs nowIso)).ui =
      loadChatHistory_then history nowMs nowIso s.ui := by
    simp [step, hFetch]
  rw [hstep]
  refine ⟨h.1, by rw [h.1, List.length_reverse], ?_, ?_, ?_⟩
  · intro i hi
    rw [h.1]
    exact List.getElem?_reverse hi
  · obtain ⟨m, hm⟩ : ∃ m, history.getLast? = some m := by
      cases hl : history.getLast? with
      | none => exact absurd (List.getLast?_eq_none_iff.mp hl) hne
      | some m => exact ⟨m, rfl⟩
    refine ⟨m, hm, ?_⟩
    rw [h.2, List.head?_reverse, hm]
    rfl
  · intro m _ hnot
    rw [h.1, List.mem_reverse]
    exact hnot

/-- Witness of `history_load_replaces_ledger`: "hi" was sent before the fetch
completed with two persisted exchanges. -/
theorem history_load_replaces_ledger_witness :
    (step (run Sys.mount [Event.typed "hi", Event.submit "2024-01-01T10:00:00.000Z"])
        (Event.historyLoaded [ramenEntry, pizzaEntry] 0
          "2024-01-01T10:00:01.000Z")).ui.messages = [ramenEntry, pizzaEntry].reverse :=
  (history_load_replaces_ledger
    (run Sys.mount [Event.typed "hi", Event.submit "2024-01-01T10:00:00.000Z"])
    [ramenEntry, pizzaEntry] 0 "2024-01-01T10:00:01.000Z" (by decide) (by decide)).1

/-! ## Failed history load -/

/-- C29: after a failed history fetch the ledger is empty and the identity
is `null`; a non-blank text typed and submitted in that state is accepted,
its request carries the text and session id `null`, the identity is still
`null` while the send is pending and after it has failed, and becomes the
session id of the reply once a reply is handled. -/
theorem failed_history_then_send (text t0 t1 : String) (data : Reply)
    (hText : blank text = false) :
    (step Sys.mount Event.historyFailed).ui.messages = [] ∧
      (step Sys.mount Event.historyFailed).ui.sessionId = none ∧
      (run Sys.mount [Event.historyFailed, Event.typed text, Event.submit t0]).sent =
        [{ message := text, session_id := none }] ∧
      (run Sys.mount [Event.historyFailed, Event.typed text, Event.submit t0]).ui.loading = true ∧
      (run Sys.mount [Event.historyFailed, Event.typed text,
        Event.submit t0]).ui.sessionId = none ∧
      (run Sys.mount [Event.historyFailed, Event.typed text, Event.submit t0,
        Event.failed t1]).ui.sessionId = none ∧
      (run Sys.mount [Event.historyFailed, Event.typed text, Event.submit t0,
        Event.replied data t1]).ui.sessionId = data.session_id := by
  have hRej : rejects { State.initial with inputMessage := text } = false := by
    simp [rejects, hText, State.initial]
  have hBegin := begin_of_accepts { State.initial with inputMessage := text } t0 hRej
  simp [run, step, Sys.mount, State.initial, loadChatHistory_catch] at hBegin ⊢
  simp [hBegin, handleSendMessage_catch, handleSendMessage_then]

/-- Witness of `failed_history_then_send`: "sushi near me" sent after a
failed history fetch. -/
theorem failed_history_then_send_witness :
    (run Sys.mount [Event.historyFailed, Event.typed "sushi near me",
        Event.submit sushiRound.t0]).sent =
      [{ message := "sushi near me", session_id := none }] :=
  (failed_history_then_send "sushi near me" sushiRound.t0 sushiRound.t1 sushiRound.data
    (by decide)).2.2.1

/-! ## One send among other events -/

/-- The state in which the reply to an accepted send is handled: the
continuation runs on the cells current at that time, with the variables of
the render that started the send. -/
theorem run_replied (s : Sys) (t0 t1 : String) (es : List Event) (data : Reply)
    (hAcc : rejects s.ui = false) (hOut : ∀ e ∈ es, e.isOutcome = false) :
    (run (step s (Event.submit t0)) (es ++ [Event.replied data t1])).ui =
      handleSendMessage_then s.ui data t1 (run (step s (Event.submit t0)) es).ui := by
  have h0 : (step s (Event.submit t0)).ui.loading = true ∧
      (step s (Event.submit t0)).ui.showVenues = [] ∧
      (step s (Event.submit t0)).inflight = some s.ui := by
    rw [step_submit_of_accepts s t0 hAcc]
    exact ⟨rfl, rfl, rfl⟩
  have h1 := pending_run es _ h0.1 h0.2.1 hOut
  have hInf : (run (step s (Event.submit t0)) es).inflight = some s.ui := h1.2.2.trans h0.2.2
  rw [run_append, run_cons, run_nil]
  generalize run (step s (Event.submit t0)) es = mid at hInf
  simp [step, hInf]

/-- The state in which the failure of an accepted send is handled. -/
theorem run_failed (s : Sys) (t0 t1 : String) (es : List Event)
    (hAcc : rejects s.ui = false) (hOut : ∀ e ∈ es, e.isOutcome = false) :
    (run (step s (Event.submit t0)) (es ++ [Event.failed t1])).ui =
      handleSendMessage_catch s.ui t1 (run (step s (Event.submit t0)) es).ui := by
  have h0 : (step s (Event.submit t0)).ui.loading = true ∧
      (step s (Event.submit t0)).ui.showVenues = [] ∧
      (step s (Event.submit t0)).inflight = some s.ui := by
    rw [step_submit_of_accepts s t0 hAcc]
    exact ⟨rfl, rfl, rfl⟩
  have h1 := pending_run es _ h0.1 h0.2.1 hOut
  have hInf : (run (step s (Event.submit t0)) es).inflight = some s.ui := h1.2.2.trans h0.2.2
  rw [run_append, run_cons, run_nil]
  generalize run (step s (Event.submit t0)) es = mid at hInf
  simp [step, hInf]

/-- With the history fetch over, the cells stay as the submit left them until
the outcome of the send. -/
theorem run_pending_of_hydrated (s : Sys) (t0 : String) (es : List Event)
    (hFetch : s.fetching = false) (hAcc : rejects s.ui = false)
    (hOut : ∀ e ∈ es, e.isOutcome = false) :
    (run (step s (Event.submit t0)) es).ui =
      { s.ui with
        messages := s.ui.messages ++ [userMessage s.ui t0]
        inputMessage := ""
        loading := true
        showVenues := [] } := by
  have hs := step_submit_of_accepts s t0 hAcc
  have hLoad : (step s (Event.submit t0)).ui.loading = true := by rw [hs]
  have hFetch1 : (step s (Event.submit t0)).fetching = false := by rw [hs]; exact hFetch
  rw [pending_run_eq es _ hLoad hFetch1 hOut, hs]

/-! ## Failed send -/

/-- C5 (amended): when a send is accepted (non-blank text, nothing pending)
and its backend call fails, after any events that come in between, the last
entry of the ledger has the fixed fallback text as `response` and the
submitted text as `message`, handling the failure leaves `sessionId` as it
was just before, and `sessionId` is what it was before the send when the
history fetch was over when the send was accepted. -/
theorem failed_send_keeps_session (s : Sys) (t0 t1 : String) (es : List Event)
    (hAcc : rejects s.ui = false) (hOut : ∀ e ∈ es, e.isOutcome = false) :
    (∃ m, (run (step s (Event.submit t0)) (es ++ [Event.failed t1])).ui.messages.getLast? =
          some m ∧
        m.response = "Произошла ошибка. Пожалуйста, попробуйте ещё раз." ∧
        m.message = s.ui.inputMessage) ∧
      (run (step s (Event.submit t0)) (es ++ [Event.failed t1])).ui.sessionId =
        (run (step s (Event.submit t0)) es).ui.sessionId ∧
      (s.fetching = false →
        (run (step s (Event.submit t0)) (es ++ [Event.failed t1])).ui.sessionId =
          s.ui.sessionId) := by
  have h := run_failed s t0 t1 es hAcc hOut
  refine ⟨⟨errorMessage s.ui t1, ?_, rfl, rfl⟩, ?_, ?_⟩
  · rw [h]
    simp [handleSendMessage_catch]
  · rw [h]
    rfl
  · intro hFetch
    rw [h, run_pending_of_hydrated s t0 es hFetch hAcc hOut]
    rfl

/-- Witness of `failed_send_keeps_session`: after the welcome exchange, with
identity "session_0", "sushi near me" is submitted, submitted again while
pending, and fails. -/
theorem failed_send_keeps_session_witness :
    (run (step (run Sys.mount [Event.historyLoaded [] 0 "2024-01-01T09:59:00.000Z",
          Event.typed "sushi near me"]) (Event.submit "2024-01-01T10:00:00.000Z"))
        ([Event.submit "2024-01-01T10:00:01.000Z"] ++
          [Event.failed "2024-01-01T10:00:30.000Z"])).ui.sessionId =
      (run Sys.mount [Event.historyLoaded [] 0 "2024-01-01T09:59:00.000Z",
        Event.typed "sushi near me"]).ui.sessionId :=
  (failed_send_keeps_session
    (run Sys.mount [Event.historyLoaded [] 0 "2024-01-01T09:59:00.000Z",
      Event.typed "sushi near me"])
    "2024-01-01T10:00:00.000Z" "2024-01-01T10:00:30.000Z"
    [Event.submit "2024-01-01T10:00:01.000Z"] (by decide) (by decide)).2.2 (by decide)

/-- C5 (counterexample): "sushi near me" is submitted while the history
fetch is waiting and the identity is `null`; the fetch completes with an
empty history, then the send fails; after the failed send the identity is
"session_1704103201000". -/
theorem failed_send_after_late_history :
    (run Sys.mount [Event.typed "sushi near me"]).ui.sessionId = none ∧
      rejects (run Sys.mount [Event.typed "sushi near me"]).ui = false ∧
      (run Sys.mount [Event.typed "sushi near me", Event.submit "2024-01-01T10:00:00.000Z",
        Event.historyLoaded [] 1704103201000 "2024-01-01T10:00:01.000Z",
        Event.failed "2024-01-01T10:00:30.000Z"]).ui.sessionId =
        some "session_1704103201000" := by
  decide

/-! ## Reply entry -/

/-- C11 (amended): after every successful send, whatever comes between the
submit and the reply, the `chat_id` of the reply entry, the last entry of the
ledger, is the ledger length at the time the send was accepted plus one,
whatever exchange id the backend assigned in its reply. -/
theorem reply_chat_id_from_ledger_length (s : Sys) (t0 t1 : String) (es : List Event)
    (data : Reply) (hAcc : rejects s.ui = false) (hOut : ∀ e ∈ es, e.isOutcome = false) :
    ∃ m, (run (step s (Event.submit t0)) (es ++ [Event.replied data t1])).ui.messages.getLast? =
        some m ∧
      m.response = data.response ∧ m.chat_id = some (s.ui.messages.length + 1) := by
  refine ⟨botMessage s.ui data t1, ?_, rfl, rfl⟩
  rw [run_replied s t0 t1 es data hAcc hOut]
  simp [handleSendMessage_then]

/-- Witness of `reply_chat_id_from_ledger_length`: the scenario of the spec,
sent from a ledger that holds the welcome entry; the backend assigns 42. -/
theorem reply_chat_id_from_ledger_length_witness :
    ∃ m, (run (step (run Sys.mount [Event.historyLoaded [] 0 "2024-01-01T09:59:00.000Z",
            Event.typed "sushi near me"]) (Event.submit sushiRound.t0))
          ([] ++ [Event.replied sushiRound.data sushiRound.t1])).ui.messages.getLast? = some m ∧
      m.response = "Try Sushi Bar" ∧ m.chat_id = some (1 + 1) :=
  reply_chat_id_from_ledger_length
    (run Sys.mount [Event.historyLoaded [] 0 "2024-01-01T09:59:00.000Z",
      Event.typed "sushi near me"])
    sushiRound.t0 sushiRound.t1 [] sushiRound.data (by decide) (by decide)

/-- C12 (amended): after a successful send whose reply carries text `r` and
session id `s`, whatever comes between the submit and the reply, the last
entry of the ledger has the submitted text as `message`, `r` as `response`
and `s` as `session_id`, and the identity `sessionId` is `s` whatever it was
before; when the history fetch was over when the send was accepted, the
entries the ledger held before the send are still there, unchanged, in
front. -/
theorem reply_entry_and_identity (s : Sys) (t0 t1 : String) (es : List Event) (data : Reply)
    (hAcc : rejects s.ui = false) (hOut : ∀ e ∈ es, e.isOutcome = false) :
    (∃ m, (run (step s (Event.submit t0)) (es ++ [Event.replied data t1])).ui.messages.getLast? =
          some m ∧
        m.message = s.ui.inputMessage ∧ m.response = data.response ∧
        m.session_id = some data.session_id) ∧
      (run (step s (Event.submit t0)) (es ++ [Event.replied data t1])).ui.sessionId =
        data.session_id ∧
      (s.fetching = false →
        s.ui.messages <+:
          (run (step s (Event.submit t0)) (es ++ [Event.replied data t1])).ui.messages) := by
  have h := run_replied s t0 t1 es data hAcc hOut
  refine ⟨⟨botMessage s.ui data t1, ?_, rfl, rfl, rfl⟩, ?_, ?_⟩
  · rw [h]
    simp [handleSendMessage_then]
  · rw [h]
    rfl
  · intro hFetch
    rw [h, run_pending_of_hydrated s t0 es hFetch hAcc hOut]
    simp [handleSendMessage_then]

/-- Witness of `reply_entry_and_identity`: the identity was "session_0" and
the reply of the spec's scenario rotates it to "s1". -/
theorem reply_entry_and_identity_witness :
    (run (step (run Sys.mount [Event.historyLoaded [] 0 "2024-01-01T09:59:00.000Z",
          Event.typed "sushi near me"]) (Event.submit sushiRound.t0))
        ([] ++ [Event.replied sushiRound.data sushiRound.t1])).ui.sessionId = some "s1" :=
  (reply_entry_and_identity
    (run Sys.mount [Event.historyLoaded [] 0 "2024-01-01T09:59:00.000Z",
      Event.typed "sushi near me"])
    sushiRound.t0 sushiRound.t1 [] sushiRound.data (by decide) (by decide)).2.1

/-- C12 (counterexample): a first send resolves while the history fetch is
still waiting; a second send is accepted, the fetch completes with one
persisted exchange, and the reply arrives.  Entry 0 of the ledger had no
`session_id` before the second send and has session id "s1" after it, and
the ledger before that send is no prefix of the ledger after it. -/
theorem late_history_changes_earlier_entries :
    (run Sys.mount [Event.typed "a", Event.submit "2024-01-01T10:00:00.000Z",
        Event.replied sushiRound.data sushiRound.t1,
        Event.typed "b"]).ui.messages[0]?.map Msg.session_id = some none ∧
      (run Sys.mount [Event.typed "a", Event.submit "2024-01-01T10:00:00.000Z",
        Event.replied sushiRound.data sushiRound.t1, Event.typed "b",
        Event.submit "2024-01-01T10:00:02.000Z",
        Event.historyLoaded [pizzaEntry] 0 "2024-01-01T10:00:03.000Z",
        Event.replied sushiRound.data "2024-01-01T10:00:04.000Z"]).ui.messages[0]?.map
          Msg.session_id = some (some (some "s1")) ∧
      ¬ ((run Sys.mount [Event.typed "a", Event.submit "2024-01-01T10:00:00.000Z",
          Event.replied sushiRound.data sushiRound.t1, Event.typed "b"]).ui.messages <+:
        (run Sys.mount [Event.typed "a", Event.submit "2024-01-01T10:00:00.000Z",
          Event.replied sushiRound.data sushiRound.t1, Event.typed "b",
          Event.submit "2024-01-01T10:00:02.000Z",
          Event.historyLoaded [pizzaEntry] 0 "2024-01-01T10:00:03.000Z",
          Event.replied sushiRound.data "2024-01-01T10:00:04.000Z"]).ui.messages) := by
  decide

/-! ## Two entries per send -/

/-- Ledger after an accepted send has resolved, when the history fetch was
over when it was accepted. -/
theorem run_resolved_of_hydrated (s : Sys) (t0 t1 : String) (es : List Event) (data : Reply)
    (hFetch : s.fetching = false) (hAcc : rejects s.ui = false)
    (hOut : ∀ e ∈ es, e.isOutcome = false) :
    (run (step s (Event.submit t0)) (es ++ [Event.replied data t1])).ui.messages =
        s.ui.messages ++ [userMessage s.ui t0, botMessage s.ui data t1] ∧
      (run (step s (Event.submit t0)) (es ++ [Event.failed t1])).ui.messages =
        s.ui.messages ++ [userMessage s.ui t0, errorMessage s.ui t1] := by
  constructor
  · rw [run_replied s t0 t1 es data hAcc hOut, run_pending_of_hydrated s t0 es hFetch hAcc hOut]
    simp [handleSendMessage_then]
  · rw [run_failed s t0 t1 es hAcc hOut, run_pending_of_hydrated s t0 es hFetch hAcc hOut]
    simp [handleSendMessage_catch]

/-- Once hydration is over, every event keeps the ledger length plus one for
a pending send in step with twice the number of accepted sends. -/
theorem step_length_balance (s : Sys) (e : Event) (hFetch : s.fetching = false)
    (hInv : s.inflight.isSome = s.ui.loading) :
    (step s e).ui.messages.length + (step s e).ui.loading.toNat =
        s.ui.messages.length + s.ui.loading.toNat + 2 * acceptedSends s [e] ∧
      (step s e).inflight.isSome = (step s e).ui.loading := by
  cases e with
  | historyLoaded history nowMs nowIso => simp [step, hFetch, acceptedSends, hInv]
  | historyFailed => simp [step, hFetch, acceptedSends, hInv]
  | typed text =>
    cases hl : s.ui.loading with
    | true => simp [step, hl, acceptedSends, hInv]
    | false => simp [step, hl, acceptedSends, hInv]
  | submit nowIso =>
    cases hr : rejects s.ui with
    | true =>
      rw [step_submit_of_rejects s nowIso hr]
      simp [acceptedSends, hr, hInv]
    | false =>
      have hl : s.ui.loading = false := by
        cases hl : s.ui.loading with
        | false => rfl
        | true => simp [rejects, hl] at hr
      rw [step_submit_of_accepts s nowIso hr]
      simp [acceptedSends, hr, hl]
  | replied data nowIso =>
    cases hi : s.inflight with
    | none =>
      have hs : step s (Event.replied data nowIso) = s := by simp [step, hi]
      rw [hs]
      simp [acceptedSends, hInv]
    | some snap =>
      have hl : s.ui.loading = true := by rw [← hInv, hi]; rfl
      simp [step, hi, handleSendMessage_then, acceptedSends, hl]
  | failed nowIso =>
    cases hi : s.inflight with
    | none =>
      have hs : step s (Event.failed nowIso) = s := by simp [step, hi]
      rw [hs]
      simp [acceptedSends, hInv]
    | some snap =>
      have hl : s.ui.loading = true := by rw [← hInv, hi]; rfl
      simp [step, hi, handleSendMessage_catch, acceptedSends, hl]

theorem run_length_balance (es : List Event) :
    ∀ s : Sys, s.fetching = false → s.inflight.isSome = s.ui.loading →
      (run s es).ui.messages.length + (run s es).ui.loading.toNat =
        s.ui.messages.length + s.ui.loading.toNat + 2 * acceptedSends s es := by
  induction es with
  | nil => intro s _ _; simp [run, acceptedSends]
  | cons e es ih =>
    intro s hFetch hInv
    have h1 := step_length_balance s e hFetch hInv
    have h2 := ih (step s e) (step_fetching_false s e hFetch) h1.2
    have h3 : acceptedSends s (e :: es) =
        acceptedSends s [e] + acceptedSends (step s e) es := by
      simp [acceptedSends]
    rw [run_cons, h2, h1.1, h3]
    omega

/-- C24 (amended): when the history fetch was over when a send was accepted,
the send, once resolved, has appended exactly two entries to `messages`, in
this order: a user entry with the submitted text, empty `response` and
`isUser` true, then an entry with the same text whose `response` is the reply
text on success and the fixed fallback text on failure; and from an idle
state with the fetch over, after any sequence of events that leaves no send
pending, the ledger has grown by twice the number of sends accepted. -/
theorem resolved_send_appends_two :
    (∀ (s : Sys) (t0 t1 : String) (es : List Event) (data : Reply),
      s.fetching = false → rejects s.ui = false → (∀ e ∈ es, e.isOutcome = false) →
        (∃ u r, (run (step s (Event.submit t0)) (es ++ [Event.replied data t1])).ui.messages =
            s.ui.messages ++ [u, r] ∧
          u.message = s.ui.inputMessage ∧ u.response = "" ∧ u.isUser = true ∧
          r.message = s.ui.inputMessage ∧ r.response = data.response) ∧
        (∃ u r, (run (step s (Event.submit t0)) (es ++ [Event.failed t1])).ui.messages =
            s.ui.messages ++ [u, r] ∧
          u.message = s.ui.inputMessage ∧ u.response = "" ∧ u.isUser = true ∧
          r.message = s.ui.inputMessage ∧
          r.response = "Произошла ошибка. Пожалуйста, попробуйте ещё раз.")) ∧
      (∀ (s : Sys) (es : List Event), s.fetching = false → s.ui.loading = false →
        s.inflight = none → (run s es).ui.loading = false →
        (run s es).ui.messages.length = s.ui.messages.length + 2 * acceptedSends s es) := by
  constructor
  · intro s t0 t1 es data hFetch hAcc hOut
    have h := run_resolved_of_hydrated s t0 t1 es data hFetch hAcc hOut
    exact ⟨⟨userMessage s.ui t0, botMessage s.ui data t1, h.1, rfl, rfl, rfl, rfl, rfl⟩,
      ⟨userMessage s.ui t0, errorMessage s.ui t1, h.2, rfl, rfl, rfl, rfl, rfl⟩⟩
  · intro s es hFetch hIdle hNone hEnd
    have h := run_length_balance es s hFetch (by rw [hNone, hIdle]; rfl)
    rw [hEnd, hIdle] at h
    simpa using h

/-- Witness of `resolved_send_appends_two`: after the welcome entry, one send
that fails and one that succeeds, with a second submit while the first is
pending. -/
theorem resolved_send_appends_two_witness :
    (run (step Sys.mount (Event.historyLoaded [] 0 "2024-01-01T09:59:00.000Z"))
        [Event.typed "sushi", Event.submit "2024-01-01T10:00:00.000Z",
          Event.submit "2024-01-01T10:00:01.000Z", Event.failed "2024-01-01T10:00:30.000Z",
          Event.typed "sushi near me", Event.submit sushiRound.t0,
          Event.replied sushiRound.data sushiRound.t1]).ui.messages.length =
      (step Sys.mount (Event.historyLoaded [] 0 "2024-01-01T09:59:00.000Z")).ui.messages.length +
        2 * acceptedSends (step Sys.mount (Event.historyLoaded [] 0 "2024-01-01T09:59:00.000Z"))
          [Event.typed "sushi", Event.submit "2024-01-01T10:00:00.000Z",
            Event.submit "2024-01-01T10:00:01.000Z", Event.failed "2024-01-01T10:00:30.000Z",
            Event.typed "sushi near me", Event.submit sushiRound.t0,
            Event.replied sushiRound.data sushiRound.t1] :=
  resolved_send_appends_two.2
    (step Sys.mount (Event.historyLoaded [] 0 "2024-01-01T09:59:00.000Z")) _
    (by decide) (by decide) (by decide) (by decide)

/-- C24 (counterexample): on the empty ledger a send is accepted while the
history fetch is waiting, the fetch completes with two persisted exchanges,
and the reply arrives; the one resolved send leaves three entries, not two,
and the first of them is no user entry. -/
theorem late_history_breaks_two_per_send :
    (run Sys.mount [Event.typed "hi"]).ui.messages.length = 0 ∧
      (run Sys.mount [Event.typed "hi", Event.submit "2024-01-01T10:00:00.000Z",
        Event.historyLoaded [ramenEntry, pizzaEntry] 0 "2024-01-01T10:00:01.000Z",
        Event.replied sushiRound.data sushiRound.t1]).ui.messages.length = 3 ∧
      (run Sys.mount [Event.typed "hi", Event.submit "2024-01-01T10:00:00.000Z",
        Event.historyLoaded [ramenEntry, pizzaEntry] 0 "2024-01-01T10:00:01.000Z",
        Event.replied sushiRound.data sushiRound.t1]).ui.messages.map Msg.isUser =
        [false, false, false] := by
  decide

/-! ## Position as id of the entries of a send -/

/-- C25 (amended): when the history fetch was over when a send was accepted,
the user entry appended by the send has as `id` the ledger length before the
send and the reply or error entry that length plus one, their positions in
`messages`; and when the conversation starts from an empty history or from a
failed history load, then after every sequence of events entry `i` of
`messages` has `id` `i`. -/
theorem entry_id_is_position :
    (∀ (s : Sys) (t0 t1 : String) (es : List Event) (data : Reply),
      s.fetching = false → rejects s.ui = false → (∀ e ∈ es, e.isOutcome = false) →
        (∃ u r, (run (step s (Event.submit t0)) (es ++ [Event.replied data t1])).ui.messages =
            s.ui.messages ++ [u, r] ∧
          u.id = s.ui.messages.length ∧ r.id = s.ui.messages.length + 1) ∧
        (∃ u r, (run (step s (Event.submit t0)) (es ++ [Event.failed t1])).ui.messages =
            s.ui.messages ++ [u, r] ∧
          u.id = s.ui.messages.length ∧ r.id = s.ui.messages.length + 1)) ∧
      (∀ (nowMs : Nat) (nowIso : String) (es : List Event) (i : Nat) (m : Msg),
        (run (step Sys.mount (Event.historyLoaded [] nowMs nowIso)) es).ui.messages[i]? = some m →
          m.id = i) ∧
      (∀ (es : List Event) (i : Nat) (m : Msg),
        (run (step Sys.mount Event.historyFailed) es).ui.messages[i]? = some m → m.id = i) := by
  refine ⟨?_, ?_, ?_⟩
  · intro s t0 t1 es data hFetch hAcc hOut
    have h := run_resolved_of_hydrated s t0 t1 es data hFetch hAcc hOut
    exact ⟨⟨userMessage s.ui t0, botMessage s.ui data t1, h.1, rfl, rfl⟩,
      ⟨userMessage s.ui t0, errorMessage s.ui t1, h.2, rfl, rfl⟩⟩
  · intro nowMs nowIso es i m hm
    exact id_of_numbered _ (numbered_run es _ (numbered_after_empty_history nowMs nowIso)) i m hm
  · intro es i m hm
    exact id_of_numbered _ (numbered_run es _ numbered_after_failed_history) i m hm

/-- Witness of `entry_id_is_position`: the reply entry of the spec's scenario
is entry 2 and has `id` 2. -/
theorem entry_id_is_position_witness :
    (botMessage
        { State.initial with
          messages := [welcomeMessage "session_0" "2024-01-01T09:59:00.000Z"],
          sessionId := some "session_0",
          inputMessage := "sushi near me" } sushiRound.data sushiRound.t1).id = 2 :=
  entry_id_is_position.2.1 0 "2024-01-01T09:59:00.000Z" sushiRound.events 2 _ (by decide)

/-- C25 (counterexample): a send is accepted on the empty ledger while the
history fetch is waiting, the fetch completes with two persisted exchanges,
and the reply arrives; the reply entry is entry 2 of `messages` and has
`id` 1. -/
theorem late_history_breaks_reply_id :
    (run Sys.mount [Event.typed "hi", Event.submit "2024-01-01T10:00:00.000Z",
        Event.historyLoaded [ramenEntry, pizzaEntry] 0 "2024-01-01T10:00:01.000Z",
        Event.replied sushiRound.data sushiRound.t1]).ui.messages[2]?.map
          (fun m => (m.response, m.id)) = some ("Try Sushi Bar", 1) := by
  decide

/-! ## Protected routes -/

/-- C30 (amended): when the stored `user` item is missing, empty or the JSON
text of an object, `ProtectedRoute` returns its children exactly when the
stored token is truthy and the route does not require admin or the `role` of
the stored user is 'admin'; without such a token it navigates to /login
whatever the stored role, and with a token, on an admin route and with
another role or none, it navigates to /chat. -/
theorem protectedRoute_cases (jsonParse : String → Except JsError JsonValue) (store : Storage)
    (requireAdmin : Bool) (role : Option String)
    (hUser : jsonParse (orElse store.user "\x7b\x7d") = Except.ok (JsonValue.object role)) :
    (ProtectedRoute jsonParse store requireAdmin = Except.ok RouteResult.children ↔
        truthy store.token = true ∧ (requireAdmin = false ∨ role = some "admin")) ∧
      (truthy store.token = false →
        ProtectedRoute jsonParse store requireAdmin =
          Except.ok (RouteResult.navigate "/login")) ∧
      (truthy store.token = true → requireAdmin = true → role ≠ some "admin" →
        ProtectedRoute jsonParse store requireAdmin =
          Except.ok (RouteResult.navigate "/chat")) := by
  cases ht : truthy store.token <;> cases requireAdmin <;>
    by_cases hr : role = some "admin" <;>
    simp [ProtectedRoute, hUser, ht, hr, roleOf]

/-- Witness of `protectedRoute_cases`: a logged-in user of role "user" on an
admin route. -/
theorem protectedRoute_cases_witness :
    ProtectedRoute parseSample
        { token := some "eyJhbGciOi", user := some "\x7b\x22role\x22:\x22user\x22\x7d" } true =
      Except.ok (RouteResult.navigate "/chat") :=
  (protectedRoute_cases parseSample
    { token := some "eyJhbGciOi", user := some "\x7b\x22role\x22:\x22user\x22\x7d" }
    true (some "user") (by rfl)).2.2 (by decide) rfl (by decide)

/-- C30 (counterexample): with a token stored and a `user` item that is no
JSON (the text `undefined`), `ProtectedRoute` throws on a route that does not
require admin instead of returning its children; with no token and that item
it throws instead of navigating to /login; with a token and the item `null`
it throws on an admin route instead of navigating to /chat. -/
theorem protectedRoute_throws :
    ProtectedRoute parseSample { token := some "eyJhbGciOi", user := some "undefined" } false =
        Except.error JsError.syntaxError ∧
      ProtectedRoute parseSample { token := none, user := some "undefined" } false =
        Except.error JsError.syntaxError ∧
      ProtectedRoute parseSample { token := some "eyJhbGciOi", user := some "null" } true =
        Except.error JsError.typeError :=
  ⟨rfl, rfl, rfl⟩

end ChatClient
